import Mathlib

/-!
Verification development for the fandomat control-plane (reverse-vending kiosk).

Shallow embedding of the coordination core:
* `src/plc/modbus_register.py` — 16-bit register cell bit operations (Python
  arbitrary-precision `|=`, `&= ~` on nonnegative ints, modelled on `Nat`);
* `src/plc/plc.py` — the command-register bit assignments of the driver methods;
* `src/websocket/server.py` — the peer hub: per-peer last-message slot with
  one-shot reads and the just-connected edge flag;
* `src/plc/application.py` — the coordinator: state machine, event emission,
  command dispatch, vision fusion, dumping and latch-clearing logic.

Modelling conventions:
* Wall-clock timestamps (`time.time()`) are rationals; all calls within one
  loop iteration are abstracted to a single per-tick `now`.
* A wire message is either `Msg.raw s` (a string that is not a JSON object,
  e.g. the bare vision tokens — `json.loads` fails or is never applied) or
  `Msg.jsonObj wire fields` (a JSON-object string together with its parse).
  JSON field values are modelled by the scalar constructors of `JVal`; in every
  embedded code path a structured value is only ever compared against string
  literals or stored opaquely, where it behaves like any other non-matching
  scalar.
* The empty string in a peer slot (initial, or after a one-shot read) is
  modelled by `Option.none`; Python string truthiness checks map accordingly.
* Events sent to the `app` peer carry `(event name, data object)`; the
  ISO-8601 timestamp added by `create_event` is real-time and not modelled.
* `get_photo` spawns a background worker thread; the embedding records the
  spawn in `TickOut.photoWorkers` and does not model the worker itself.
-/

namespace Fandomat

/-- Scalar JSON values appearing in wire messages and event payloads. -/
inductive JVal where
  | str (s : String)
  | num (n : Nat)
  | rat (q : ℚ)
  | bool (b : Bool)
  | null
  deriving DecidableEq, Repr

/-- Python truthiness of a JSON value (`if app_command:`, `if not config:`). -/
def JVal.truthy : JVal → Bool
  | .str s => s ≠ ""
  | .num n => n ≠ 0
  | .rat q => q ≠ 0
  | .bool b => b
  | .null => false

/-- Truthiness of an optional JSON value (absent key / `None` is falsy). -/
def joptTruthy : Option JVal → Bool
  | none => false
  | some v => v.truthy

/-- Python `None` serializes to JSON `null`; an absent optional becomes null. -/
def jopt : Option JVal → JVal := fun o => o.getD JVal.null

/-- An optional Python string rendered as a JSON value (`None` becomes null). -/
def optStrJ : Option String → JVal
  | none => JVal.null
  | some s => JVal.str s

/-- Wire message: a non-JSON-object string, or a JSON object paired with its
wire text. -/
inductive Msg where
  | raw (s : String)
  | jsonObj (wire : String) (fields : List (String × JVal))
  deriving DecidableEq, Repr

/-- Wire text of a message (what Python string comparisons see). -/
def Msg.render : Msg → String
  | .raw s => s
  | .jsonObj w _ => w

/-- Python falsiness of the message string. -/
def Msg.isEmpty (m : Msg) : Bool := m.render = ""

/-- Result of `json.loads` followed by the dict check: `raw` strings are not
JSON objects (`JSONDecodeError` path), `jsonObj` yields its fields. -/
def Msg.jsonLoads : Msg → Option (List (String × JVal))
  | .raw _ => none
  | .jsonObj _ fields => some fields

/-- First-match lookup in a JSON object's field list (Python dict access;
`json.loads` produces unique keys). -/
def lookupField (fields : List (String × JVal)) (key : String) : Option JVal :=
  match fields with
  | [] => none
  | (k, v) :: rest => if k = key then some v else lookupField rest key

/-- Python `data[key] = v`: replace the first binding of `key` or append it. -/
def setField (fields : List (String × JVal)) (key : String) (v : JVal) :
    List (String × JVal) :=
  match fields with
  | [] => [(key, v)]
  | (k, w) :: rest =>
      if k = key then (k, v) :: rest else (k, w) :: setField rest key v

/-- Event pushed to the `app` peer: name plus data object. -/
structure Event where
  name : String
  data : List (String × JVal)
  deriving DecidableEq, Repr

/-! ## Peer hub (`src/websocket/server.py`)

`client_messages[name]` is a dict holding `message`, `timestamp` and, right
after registration, `just_connected: True`.  Each received frame REPLACES the
whole dict (without the `just_connected` key); `is_client_just_connected`
reads that key with default `False`, so a received frame effectively disarms
the flag.  The slot is modelled with `justConnected := false` after a receive.
Timestamps are not modelled (never read by the core). -/

/-- Per-peer slot of the hub. `message = none` models the empty string slot. -/
structure PeerSlot where
  message : Option Msg
  justConnected : Bool
  deriving Repr

/-- The hub's `client_messages` dict: peer name to slot. -/
def Hub : Type := String → Option PeerSlot

/-- Hub with no registered peers. -/
def Hub.empty : Hub := fun _ => none

/-- Registration (`_handler`, first frame): fresh slot with empty message and
the `just_connected` flag armed. -/
def Hub.register (h : Hub) (name : String) : Hub :=
  fun n => if n = name then some { message := none, justConnected := true } else h n

/-- Receipt of a subsequent frame (`_handler` loop): the slot dict is replaced
by one holding only the message, so the `just_connected` key is dropped. -/
def Hub.recvMsg (h : Hub) (name : String) (m : Msg) : Hub :=
  fun n => if n = name then some { message := some m, justConnected := false } else h n

/-- Disconnect (`_handler` finally block): the slot is deleted. -/
def Hub.disconnect (h : Hub) (name : String) : Hub :=
  fun n => if n = name then none else h n

/-- One-shot read (`get_command`): return the current last message and clear
the slot; empty result if the peer is absent. -/
def Hub.get_command (h : Hub) (name : String) : Option Msg × Hub :=
  match h name with
  | some slot =>
      (slot.message,
       fun n => if n = name then some { slot with message := none } else h n)
  | none => (none, h)

/-- Continuous read (`get_state`): return the last message without clearing. -/
def Hub.get_state (h : Hub) (name : String) : Option Msg :=
  match h name with
  | some slot => slot.message
  | none => none

/-- Edge read (`is_client_just_connected`): return the flag and disarm it. -/
def Hub.is_client_just_connected (h : Hub) (name : String) : Bool × Hub :=
  match h name with
  | some slot =>
      if slot.justConnected then
        (true, fun n => if n = name then some { slot with justConnected := false } else h n)
      else (false, h)
  | none => (false, h)

/-! ## Register cell bit operations (`src/plc/modbus_register.py`)

Python ints are unbounded and nonnegative here, so `value |= (1 << n)` is
`Nat.lor` with `2 ^ n`, and `value &= ~(1 << n)` clears bit `n`, which on a
nonnegative value whose bit `n` is set equals xor with `2 ^ n`. -/

/-- Python `value |= (1 << n)` (`ModbusRegister.set_bit` with state 1). -/
def set_bit (v n : Nat) : Nat := v ||| (1 <<< n)

/-- Python `value &= ~(1 << n)` (`ModbusRegister.set_bit` with state 0). -/
def clear_bit (v n : Nat) : Nat := if v.testBit n then v ^^^ (1 <<< n) else v

/-- Python `(value >> n) & 1` (`ModbusRegister.get_bit`); returns 0 or 1. -/
def get_bit (v n : Nat) : Nat := (v >>> n) &&& 1

theorem testBit_set_bit (v n m : Nat) :
    (set_bit v n).testBit m = (v.testBit m || decide (m = n)) := by
  rw [set_bit, Nat.testBit_or, Nat.one_shiftLeft, Nat.testBit_two_pow]
  rcases eq_or_ne m n with h | h
  · subst h; simp
  · simp [h, h.symm]

theorem testBit_clear_bit (v n m : Nat) :
    (clear_bit v n).testBit m = (v.testBit m && decide (m ≠ n)) := by
  unfold clear_bit
  rcases eq_or_ne m n with h | h
  · subst h
    by_cases hv : v.testBit m <;>
      simp [hv, Nat.testBit_xor, Nat.one_shiftLeft, Nat.testBit_two_pow]
  · by_cases hv : v.testBit n <;>
      simp [hv, Nat.testBit_xor, Nat.one_shiftLeft, Nat.testBit_two_pow, h, h.symm]

theorem get_bit_eq_one_iff_testBit (v n : Nat) :
    get_bit v n = 1 ↔ v.testBit n = true := by
  rw [get_bit, Nat.and_one_is_mod, Nat.shiftRight_eq_div_pow,
    Nat.testBit_to_div_mod]
  constructor
  · intro h; simpa [h]
  · intro h; simpa using h

/-! ## Coordinator data model (`src/plc/application.py`) -/

/-- States of the application state machine (`AppState`). -/
inductive AppState where
  | idle
  | waiting_vision
  | dumping_plastic
  | dumping_aluminum
  | error
  deriving DecidableEq, Repr

/-- String value of each state (the Python enum values). -/
def AppState.value : AppState → String
  | .idle => "idle"
  | .waiting_vision => "waiting_vision"
  | .dumping_plastic => "dumping_plastic"
  | .dumping_aluminum => "dumping_aluminum"
  | .error => "error"

/-- Timeout for the vision reply (`vision_timeout`, seconds). -/
def vision_timeout : ℚ := 2

/-- Timeout for carriage motion during dumping (`dump_timeout`, seconds). -/
def dump_timeout : ℚ := 3

/-- Timeout for clearing the detection latch bits (`carriage_reset_timeout`). -/
def carriage_reset_timeout : ℚ := 2

/-- Command-register writes the coordinator can issue (the `PLC.cmd_*` driver
methods of `src/plc/plc.py`). -/
inductive PlcCmd where
  | lock_and_block_carriage
  | weight_error_reset
  | reset_bank_counters
  | reset_bottle_counters
  | force_move_carriage_left
  | force_move_carriage_right
  | radxa_detected_bank
  | radxa_detected_bottle
  | radxa_stop_detected_bank
  | radxa_stop_detected_bottle
  | reset_weight_reading
  | full_clear_register
  deriving DecidableEq, Repr

/-- Effect of each driver method on the command-register word (register 25):
`cmd_radxa_detected_bottle` sets bit 7, `cmd_radxa_detected_bank` sets bit 6,
the `stop` variants clear them, `cmd_full_clear_register` zeroes the word. -/
def PlcCmd.apply : PlcCmd → Nat → Nat
  | .lock_and_block_carriage, v => set_bit v 0
  | .weight_error_reset, v => set_bit v 1
  | .reset_bank_counters, v => set_bit v 2
  | .reset_bottle_counters, v => set_bit v 3
  | .force_move_carriage_left, v => set_bit v 4
  | .force_move_carriage_right, v => set_bit v 5
  | .radxa_detected_bank, v => set_bit v 6
  | .radxa_detected_bottle, v => set_bit v 7
  | .radxa_stop_detected_bank, v => clear_bit v 6
  | .radxa_stop_detected_bottle, v => clear_bit v 7
  | .reset_weight_reading, v => set_bit v 8
  | .full_clear_register, _ => 0

/-- Folding a sequence of driver calls over a command-register word. -/
def applyCmds (v : Nat) (cs : List PlcCmd) : Nat :=
  cs.foldl (fun w c => c.apply w) v

/-- Snapshot of the device data visible in one tick: the status-register word
(register 26, bits per §3 of plc.py: 0 veil, 1 left sensor, 3 right sensor,
6 bank_exist, 7 bottle_exist, 5 weight_error, 8 weight_too_small,
12 left_movement_error, 13 right_movement_error) and counter registers. -/
structure PlcIn where
  status : Nat
  bottle_count : Nat
  bank_count : Nat
  bottle_fill_percent : Nat
  bank_fill_percent : Nat
  deriving DecidableEq, Repr

/-- Hub-side happenings delivered between coordinator ticks: a peer
(re)registration or an incoming frame. -/
inductive HubEv where
  | connect (name : String)
  | msg (name : String) (m : Msg)
  deriving DecidableEq, Repr

/-- Input of one coordinator tick: the wall-clock time, the polled device
snapshot, and hub events that arrived since the previous tick (the hub runs on
its own thread; arrivals are serialized at tick boundaries). -/
structure Env where
  now : ℚ
  plc : PlcIn
  hubEvs : List HubEv

/-- Application of the pending hub events to the hub state. -/
def deliverHubEvs (evs : List HubEv) (h : Hub) : Hub :=
  match evs with
  | [] => h
  | .connect name :: rest => deliverHubEvs rest (h.register name)
  | .msg name m :: rest => deliverHubEvs rest (h.recvMsg name m)

/-- Mutable coordinator state (the `Application` attributes that the main loop
reads and writes).  `cmdReg` is the in-memory word of the command register
(`PLC.modbus_register_cmd.value`); the coordinator only ever writes it.
Stored Python ints that are used solely for truthiness (the `_prev_*`
snapshots, receiver state) are modelled as `Bool`. -/
structure AppSt where
  state : AppState
  door_locked : Bool
  device_config : Option JVal
  current_plc_detection : Option String
  vision_request_time : Option ℚ
  dump_started_time : Option ℚ
  prev_veil_state : Nat
  veil_just_cleared : Bool
  veil_cleared_time : Option ℚ
  carriage_moving_bottle : Bool
  carriage_moving_bank : Bool
  carriage_moving_start_time : Option ℚ
  prev_receiver_state : Bool
  prev_weight_error : Bool
  prev_weight_too_small : Bool
  prev_left_movement_error : Bool
  prev_right_movement_error : Bool
  inference_requested : Bool
  pending_vision_response : Option Msg
  cmdReg : Nat
  deriving DecidableEq, Repr

/-- Coordinator state right after `Application.__init__` (command register
cleared at driver construction). -/
def initialState : AppSt where
  state := .idle
  door_locked := false
  device_config := none
  current_plc_detection := none
  vision_request_time := none
  dump_started_time := none
  prev_veil_state := 0
  veil_just_cleared := false
  veil_cleared_time := none
  carriage_moving_bottle := false
  carriage_moving_bank := false
  carriage_moving_start_time := none
  prev_receiver_state := false
  prev_weight_error := false
  prev_weight_too_small := false
  prev_left_movement_error := false
  prev_right_movement_error := false
  inference_requested := false
  pending_vision_response := none
  cmdReg := 0

/-- Observable outputs accumulated during one tick: events pushed to `app`,
frames sent to `vision`, driver calls issued, photo workers spawned. -/
structure TickOut where
  events : List Event := []
  visionSends : List String := []
  plcCmds : List PlcCmd := []
  photoWorkers : Nat := 0
  deriving Repr

/-- Working configuration threaded through the tick body: coordinator state,
hub state, accumulated outputs. -/
structure Step where
  st : AppSt
  hub : Hub
  out : TickOut

/-- Embedding of `send_event_to_app` (the ISO timestamp is not modelled). -/
def sendEventToApp (s : Step) (name : String) (data : List (String × JVal)) : Step :=
  { s with out := { s.out with events := s.out.events ++ [⟨name, data⟩] } }

/-- Embedding of `websocket_server.send_to_client("vision", m)`. -/
def sendVision (s : Step) (m : String) : Step :=
  { s with out := { s.out with visionSends := s.out.visionSends ++ [m] } }

/-- Issue of one driver call: apply it to the command-register word and record
it in the tick trace. -/
def plcCmd (s : Step) (c : PlcCmd) : Step :=
  { s with st := { s.st with cmdReg := c.apply s.st.cmdReg },
           out := { s.out with plcCmds := s.out.plcCmds ++ [c] } }

/-- Python truthiness of an optional float timestamp (`0.0` is falsy). -/
def tTruthy : Option ℚ → Bool
  | none => false
  | some t => t ≠ 0

/-! ## Command parsing and handlers (`Application.parse_command`, `handle_*`) -/

/-- Embedding of `Application.parse_command`: empty input yields no command;
a non-JSON message hits the `JSONDecodeError` branch; a JSON object has
`container_type` (or, failing that, `config`) normalized into `param`, and the
command is the value of the `command` key. -/
def parse_command (m : Option Msg) : Option JVal × List (String × JVal) :=
  match m with
  | none => (none, [])
  | some msg =>
      if msg.render = "" then (none, [])
      else
        match msg.jsonLoads with
        | none => (none, [])
        | some fields =>
            let fields :=
              match lookupField fields "container_type" with
              | some v => setField fields "param" v
              | none =>
                  match lookupField fields "config" with
                  | some v => setField fields "param" v
                  | none => fields
            (lookupField fields "command", fields)

/-- Embedding of `handle_get_photo`: spawns a background worker (recorded in
the tick trace; the worker's own vision round-trip is concurrent and not
modelled). -/
def handle_get_photo (s : Step) : Step :=
  { s with out := { s.out with photoWorkers := s.out.photoWorkers + 1 } }

/-- Embedding of `handle_get_device_info`: snapshot event `device_info`. -/
def handle_get_device_info (p : PlcIn) (s : Step) : Step :=
  sendEventToApp s "device_info"
    [("bottle_count", .num p.bottle_count),
     ("bank_count", .num p.bank_count),
     ("bottle_fill_percent", .num p.bottle_fill_percent),
     ("bank_fill_percent", .num p.bank_fill_percent),
     ("state", .str s.st.state.value),
     ("left_sensor", .num (get_bit p.status 1)),
     ("center_sensor", .num (get_bit p.status 2)),
     ("right_sensor", .num (get_bit p.status 3)),
     ("weight_error", .num (get_bit p.status 5)),
     ("door_locked", .bool s.st.door_locked)]

/-- Embedding of `handle_device_init`: a falsy config is ignored, otherwise it
is stored and acknowledged. -/
def handle_device_init (config : Option JVal) (s : Step) : Step :=
  if ¬ joptTruthy config then s
  else
    let s := { s with st := { s.st with device_config := config } }
    sendEventToApp s "device_init_ack" [("status", .str "ok")]

/-- Embedding of `handle_container_dump`: `"plastic"` starts a left dump,
`"aluminum"` a right dump; any other value (including a missing parameter) is
only logged — no state change, no driver call, no event. -/
def handle_container_dump (now : ℚ) (container_type : Option JVal) (s : Step) : Step :=
  if container_type = some (.str "plastic") then
    let s := { s with st := { s.st with state := .dumping_plastic,
                                        dump_started_time := some now } }
    let s := plcCmd s .force_move_carriage_left
    sendEventToApp s "container_dumped" [("container_type", .str "plastic")]
  else if container_type = some (.str "aluminum") then
    let s := { s with st := { s.st with state := .dumping_aluminum,
                                        dump_started_time := some now } }
    let s := plcCmd s .force_move_carriage_right
    sendEventToApp s "container_dumped" [("container_type", .str "aluminum")]
  else s

/-- Embedding of `handle_container_unloaded`: reset the matching counter and
always acknowledge with the given value. -/
def handle_container_unloaded (container_type : Option JVal) (s : Step) : Step :=
  let s :=
    if container_type = some (.str "plastic") then plcCmd s .reset_bottle_counters
    else if container_type = some (.str "aluminum") then plcCmd s .reset_bank_counters
    else s
  sendEventToApp s "container_unloaded_ack" [("container_type", jopt container_type)]

/-- Embedding of `handle_lock_door`. -/
def handle_lock_door (s : Step) : Step :=
  sendEventToApp { s with st := { s.st with door_locked := true } }
    "up_door_locked" [("status", .str "ok")]

/-- Embedding of `handle_unlock_door`. -/
def handle_unlock_door (s : Step) : Step :=
  sendEventToApp { s with st := { s.st with door_locked := false } }
    "up_door_unlocked" [("status", .str "ok")]

/-- Embedding of `handle_stub_command`: acknowledge as not implemented. -/
def handle_stub_command (name : String) (s : Step) : Step :=
  sendEventToApp s (name ++ "_ack") [("status", .str "not_implemented")]

/-- The command registry `self._command_handlers` of `__init__`: command name
to handler action.  Stub commands receive their own name; param-taking
handlers receive `params.get("param")`; the `cmd_*` entries are the direct
driver passthrough lambdas. -/
def command_handlers (e : Env) (params : List (String × JVal)) :
    List (String × (Step → Step)) :=
  [("get_photo", handle_get_photo),
   ("get_device_info", handle_get_device_info e.plc),
   ("device_init", handle_device_init (lookupField params "param")),
   ("dump_container", handle_container_dump e.now (lookupField params "param")),
   ("container_unloaded", handle_container_unloaded (lookupField params "param")),
   ("lock_door", handle_lock_door),
   ("unlock_door", handle_unlock_door),
   ("enter_service_mode", handle_stub_command "enter_service_mode"),
   ("exit_service_mode", handle_stub_command "exit_service_mode"),
   ("restore_device", handle_stub_command "restore_device"),
   ("open_shutter", handle_stub_command "open_shutter"),
   ("reboot_device", handle_stub_command "reboot_device"),
   ("cmd_full_clear_register", fun s => plcCmd s .full_clear_register),
   ("cmd_force_move_carriage_left", fun s => plcCmd s .force_move_carriage_left),
   ("cmd_force_move_carriage_right", fun s => plcCmd s .force_move_carriage_right),
   ("cmd_weight_error_reset", fun s => plcCmd s .weight_error_reset),
   ("cmd_reset_weight_reading", fun s => plcCmd s .reset_weight_reading)]

/-- Dict lookup `self._command_handlers[command]`: the command value (any JSON
value) is compared against the string keys. -/
def lookupHandler (l : List (String × (Step → Step))) (cmd : JVal) :
    Option (Step → Step) :=
  match l with
  | [] => none
  | (k, f) :: rest => if cmd = .str k then some f else lookupHandler rest cmd

/-- Embedding of `Application._dispatch_command`: a command outside the
registry emits `command_error` with `unknown_command`; otherwise its handler
runs. -/
def dispatch_command (e : Env) (cmd : JVal) (params : List (String × JVal))
    (s : Step) : Step :=
  match lookupHandler (command_handlers e params) cmd with
  | some f => f s
  | none => sendEventToApp s "command_error"
      [("command", cmd), ("error", .str "unknown_command")]

/-- Keys of the command registry (`self._command_handlers`). -/
def commandNames : List String :=
  ["get_photo", "get_device_info", "device_init", "dump_container",
   "container_unloaded", "lock_door", "unlock_door", "enter_service_mode",
   "exit_service_mode", "restore_device", "open_shutter", "reboot_device",
   "cmd_full_clear_register", "cmd_force_move_carriage_left",
   "cmd_force_move_carriage_right", "cmd_weight_error_reset",
   "cmd_reset_weight_reading"]

/-! ## State-machine bodies (`Application.run` and its helpers) -/

/-- Embedding of the body of `Application._handle_dumping_state`,
parameterized by the `_dumping_config` entry: sensor value, container type,
counter value, error code and message.  DUMPING_PLASTIC watches the left
sensor (status bit 1) and the bottle counter, DUMPING_ALUMINUM the right
sensor (bit 3) and the bank counter; the config map is only ever consulted
for the two dumping states. -/
def dumping_step (now : ℚ) (sensor : Nat) (ty : String) (counter : Nat)
    (error_code error_message : String) (s : Step) : Step :=
  if sensor = 1 then
    let s := plcCmd s .full_clear_register
    let s := { s with st := { s.st with state := .idle, dump_started_time := none } }
    sendEventToApp s "container_accepted"
      [("container_type", .str ty), ("counter", .num counter)]
  else if now - s.st.dump_started_time.getD 0 > dump_timeout then
    let s := plcCmd s .full_clear_register
    let s := { s with st := { s.st with state := .error, dump_started_time := none } }
    sendEventToApp s "hardware_error"
      [("error_code", .str error_code), ("message", .str error_message)]
  else s

/-- Dispatch of the dumping body on the `_dumping_config` entry for the
current state. -/
def handle_dumping_state (e : Env) (s : Step) : Step :=
  match s.st.state with
  | .dumping_plastic =>
      dumping_step e.now (get_bit e.plc.status 1) "plastic" e.plc.bottle_count
        "carriage_left_timeout" "Таймаут движения каретки влево" s
  | _ =>
      dumping_step e.now (get_bit e.plc.status 3) "aluminum" e.plc.bank_count
        "carriage_right_timeout" "Таймаут движения каретки вправо" s

/-- Embedding of `Application._handle_vision_response_with_events`: compare the
stored vision reply (a wire string) with the PLC detection; on agreement set
the matching latch bit and arm the carriage-moving flag, otherwise report the
container as not recognized. -/
def handle_vision_response_with_events (now : ℚ) (resp : Msg) (s : Step) : Step :=
  if resp.render = "none" then
    sendEventToApp s "container_not_recognized" []
  else if s.st.current_plc_detection = some "plastic" ∧ resp.render = "plastic" then
    let s := plcCmd s .radxa_detected_bottle
    let s := { s with st := { s.st with carriage_moving_bottle := true,
                                        carriage_moving_start_time := some now } }
    sendEventToApp s "container_recognized"
      [("container_type", .str "plastic"), ("confidence", .rat 1)]
  else if s.st.current_plc_detection = some "aluminum" ∧ resp.render = "aluminum" then
    let s := plcCmd s .radxa_detected_bank
    let s := { s with st := { s.st with carriage_moving_bank := true,
                                        carriage_moving_start_time := some now } }
    sendEventToApp s "container_recognized"
      [("container_type", .str "aluminum"), ("confidence", .rat 1)]
  else
    sendEventToApp s "container_not_recognized"
      [("plc_type", optStrJ s.st.current_plc_detection),
       ("vision_type", .str resp.render)]

/-- Embedding of `Application._handle_error_state_commands`: drain the app
slot; honor only `get_photo`, `get_device_info`, `dump_container` and
`restore_device`; any other truthy command is answered with
`command_error{error: not_allowed_in_error_state}`. -/
def handle_error_state_commands (e : Env) (s : Step) : Step :=
  match Hub.get_command s.hub "app" with
  | (app_message, h1) =>
    let s := { s with hub := h1 }
    match parse_command app_message with
    | (app_command, params) =>
      match app_command with
      | none => s
      | some c =>
        if ¬ c.truthy then s
        else
          let app_param := lookupField params "param"
          if c = .str "get_photo" then handle_get_photo s
          else if c = .str "get_device_info" then handle_get_device_info e.plc s
          else if c = .str "dump_container" then handle_container_dump e.now app_param s
          else if c = .str "restore_device" then
            let s := { s with st := { s.st with state := .idle } }
            sendEventToApp s "restore_device_ack" [("status", .str "ok")]
          else
            sendEventToApp s "command_error"
              [("command", c), ("error", .str "not_allowed_in_error_state")]

/-- Embedding of `Application._check_receiver_state`: edge-triggered
receiver-occupancy events (`bottle or bank` truthiness against the previous
snapshot, which is updated only on a change). -/
def check_receiver_state (p : PlcIn) (s : Step) : Step :=
  let bottle := get_bit p.status 7
  let bank := get_bit p.status 6
  let current : Bool := bottle = 1 ∨ bank = 1
  if current ≠ s.st.prev_receiver_state then
    let s :=
      if current then
        sendEventToApp s "receiver_not_empty"
          [("bottle_exist", .num bottle), ("bank_exist", .num bank)]
      else sendEventToApp s "receiver_empty" []
    { s with st := { s.st with prev_receiver_state := current } }
  else s

/-- Embedding of `Application._check_hardware_errors`: four rising-edge
`hardware_error` events; each previous snapshot is refreshed every tick. -/
def check_hardware_errors (p : PlcIn) (s : Step) : Step :=
  let weight_error : Bool := get_bit p.status 5 = 1
  let s :=
    if weight_error ∧ ¬ s.st.prev_weight_error then
      sendEventToApp s "hardware_error"
        [("error_code", .str "weight_error"), ("message", .str "Ошибка взвешивания")]
    else s
  let s := { s with st := { s.st with prev_weight_error := weight_error } }
  let weight_small : Bool := get_bit p.status 8 = 1
  let s :=
    if weight_small ∧ ¬ s.st.prev_weight_too_small then
      sendEventToApp s "hardware_error"
        [("error_code", .str "weight_too_small"), ("message", .str "Вес слишком маленький")]
    else s
  let s := { s with st := { s.st with prev_weight_too_small := weight_small } }
  let left_error : Bool := get_bit p.status 12 = 1
  let s :=
    if left_error ∧ ¬ s.st.prev_left_movement_error then
      sendEventToApp s "hardware_error"
        [("error_code", .str "left_movement_error"),
         ("message", .str "Ошибка движения каретки влево")]
    else s
  let s := { s with st := { s.st with prev_left_movement_error := left_error } }
  let right_error : Bool := get_bit p.status 13 = 1
  let s :=
    if right_error ∧ ¬ s.st.prev_right_movement_error then
      sendEventToApp s "hardware_error"
        [("error_code", .str "right_movement_error"),
         ("message", .str "Ошибка движения каретки вправо")]
    else s
  { s with st := { s.st with prev_right_movement_error := right_error } }

/-- Embedding of the bottle latch-timeout check of the main loop (run lines
190–195): if the bottle carriage-moving flag is armed and the shared start
timestamp is truthy and more than `carriage_reset_timeout` old, clear latch
bit 7, the flag and the timestamp. -/
def bottle_timeout_check (now : ℚ) (s : Step) : Step :=
  if s.st.carriage_moving_bottle ∧ tTruthy s.st.carriage_moving_start_time then
    if now - s.st.carriage_moving_start_time.getD 0 > carriage_reset_timeout then
      let s := plcCmd s .radxa_stop_detected_bottle
      { s with st := { s.st with carriage_moving_bottle := false,
                                 carriage_moving_start_time := none } }
    else s
  else s

/-- Embedding of the bank latch-timeout check (run lines 197–202), symmetric
on bit 6.  It reads the shared timestamp after the bottle check may already
have nulled it. -/
def bank_timeout_check (now : ℚ) (s : Step) : Step :=
  if s.st.carriage_moving_bank ∧ tTruthy s.st.carriage_moving_start_time then
    if now - s.st.carriage_moving_start_time.getD 0 > carriage_reset_timeout then
      let s := plcCmd s .radxa_stop_detected_bank
      { s with st := { s.st with carriage_moving_bank := false,
                                 carriage_moving_start_time := none } }
    else s
  else s

/-- Both latch-timeout checks, bottle first as in the source. -/
def carriage_timeout_checks (now : ℚ) (s : Step) : Step :=
  bank_timeout_check now (bottle_timeout_check now s)

/-- First statement block of the WAITING_VISION branch of the main loop (run
lines 205–217): drain the vision slot and latch a first non-empty reply,
clearing the timing marker. -/
def wv_store (s : Step) : Step :=
  match Hub.get_command s.hub "vision" with
  | (vision_response, h1) =>
    let s := { s with hub := h1 }
    match vision_response with
    | some m =>
        if ¬ m.isEmpty ∧ s.st.pending_vision_response = none then
          let s := { s with st := { s.st with pending_vision_response := some m } }
          if s.st.veil_cleared_time.isSome then
            { s with st := { s.st with veil_cleared_time := none } }
          else s
        else s
    | none => s

/-- Second statement block of the WAITING_VISION branch (run lines 219–226):
resolve the PLC detection from the status bits if still unknown. -/
def wv_resolve (p : PlcIn) (s : Step) : Step :=
  if s.st.current_plc_detection = none then
    if get_bit p.status 7 = 1 then
      { s with st := { s.st with current_plc_detection := some "plastic" } }
    else if get_bit p.status 6 = 1 then
      { s with st := { s.st with current_plc_detection := some "aluminum" } }
    else s
  else s

/-- Third statement block of the WAITING_VISION branch (run lines 228–256):
fuse both results and go IDLE, or give up past `vision_timeout` with
`container_not_recognized`. -/
def wv_decide (now : ℚ) (s : Step) : Step :=
  if s.st.pending_vision_response.isSome ∧ s.st.current_plc_detection.isSome then
    let s :=
      match s.st.pending_vision_response with
      | some m => handle_vision_response_with_events now m s
      | none => s
    { s with st := { s.st with state := .idle, vision_request_time := none,
                               current_plc_detection := none,
                               pending_vision_response := none } }
  else if now - s.st.vision_request_time.getD 0 > vision_timeout then
    let s :=
      if s.st.veil_cleared_time.isSome then
        { s with st := { s.st with veil_cleared_time := none } }
      else s
    let s := { s with st := { s.st with state := .idle, vision_request_time := none,
                                        current_plc_detection := none,
                                        pending_vision_response := none } }
    sendEventToApp s "container_not_recognized" []
  else s

/-- The WAITING_VISION branch is the three blocks in source order.  In
WAITING_VISION `vision_request_time` is always set (established at arming);
the `getD 0` default in `wv_decide` is never exercised from a reachable
state. -/
def waiting_vision_body (e : Env) (s : Step) : Step :=
  wv_decide e.now (wv_resolve e.plc (wv_store s))

/-- IDLE block a (run lines 266–268): device-info push on a fresh app
connection. -/
def idle_connect_check (p : PlcIn) (s : Step) : Step :=
  match Hub.is_client_just_connected s.hub "app" with
  | (jc, h1) =>
    let s := { s with hub := h1 }
    if jc then handle_get_device_info p s else s

/-- IDLE block b (run lines 271–278): reset the single-inference guard when
the receiver is observed empty (`container_detected` is
`bottle_exist == 1 or bank_exist == 1`). -/
def idle_guard_reset (p : PlcIn) (s : Step) : Step :=
  if ¬ (get_bit p.status 7 = 1 ∨ get_bit p.status 6 = 1) then
    { s with st := { s.st with inference_requested := false } }
  else s

/-- IDLE block c (run lines 282–308): on a veil falling edge with the guard
clear, arm an inference run — mark the guard, stamp the times, take the
provisional PLC detection (plastic from bit 7, else aluminum from bit 6, else
unknown), emit `container_detected`, drain the stale vision slot, send the
inference-trigger token, and transition to WAITING_VISION. -/
def idle_arm (e : Env) (s : Step) : Step :=
  if s.st.prev_veil_state = 1 ∧ get_bit e.plc.status 0 = 0 ∧
      ¬ s.st.inference_requested then
    let s := { s with st := { s.st with veil_just_cleared := true,
                                        veil_cleared_time := some e.now,
                                        inference_requested := true,
                                        vision_request_time := some e.now } }
    let det_cmd : Option String × String :=
      if get_bit e.plc.status 7 = 1 then (some "plastic", "bottle_exist")
      else if get_bit e.plc.status 6 = 1 then (some "aluminum", "bank_exist")
      else (none, "bottle_exist")
    let s := { s with st := { s.st with current_plc_detection := det_cmd.1 } }
    let s := sendEventToApp s "container_detected"
      [("container_type", .str (det_cmd.1.getD "unknown"))]
    let s := { s with hub := (Hub.get_command s.hub "vision").2 }
    let s := sendVision s det_cmd.2
    { s with st := { s.st with state := .waiting_vision } }
  else s

/-- IDLE blocks d and e (run lines 311–315): veil bookkeeping. -/
def idle_veil_update (p : PlcIn) (s : Step) : Step :=
  let s :=
    if get_bit p.status 0 = 1 then
      { s with st := { s.st with veil_just_cleared := false, veil_cleared_time := none } }
    else s
  { s with st := { s.st with prev_veil_state := get_bit p.status 0 } }

/-- IDLE block f (run lines 318–322): drain the app slot, parse and dispatch
a truthy command. -/
def idle_dispatch (e : Env) (s : Step) : Step :=
  match Hub.get_command s.hub "app" with
  | (app_message, h2) =>
    let s := { s with hub := h2 }
    match parse_command app_message with
    | (app_command, params) =>
      match app_command with
      | some c => if c.truthy then dispatch_command e c params s else s
      | none => s

/-- Embedding of the IDLE branch of the main loop (run lines 263–322), the
blocks in source order.  The dispatch runs even when the arm just moved the
machine to WAITING_VISION, exactly as in the source. -/
def idle_body (e : Env) (s : Step) : Step :=
  idle_dispatch e
    (idle_veil_update e.plc
      (idle_arm e
        (idle_guard_reset e.plc
          (idle_connect_check e.plc s))))

/-- Main-loop step 1 (run lines 186–187): the dumping handler when in a
dumping state. -/
def tick_dumping (e : Env) (s : Step) : Step :=
  if s.st.state = .dumping_plastic ∨ s.st.state = .dumping_aluminum then
    handle_dumping_state e s
  else s

/-- Main-loop `if`/`elif` chain on the possibly-updated state (run lines
204–322): WAITING_VISION, ERROR or IDLE processing. -/
def tick_branch (e : Env) (s : Step) : Step :=
  if s.st.state = .waiting_vision then waiting_vision_body e s
  else if s.st.state = .error then handle_error_state_commands e s
  else if s.st.state = .idle then idle_body e s
  else s

/-- Embedding of one iteration of `Application.run`: the dumping handler, the
two latch-timeout checks, the `if`/`elif` chain on the (possibly updated)
state, then the receiver and hardware-error edge checks.  Hub events that
arrived since the previous tick are delivered up front. -/
def tick (e : Env) (st : AppSt) (h : Hub) : Step :=
  check_hardware_errors e.plc
    (check_receiver_state e.plc
      (tick_branch e
        (carriage_timeout_checks e.now
          (tick_dumping e { st := st, hub := deliverHubEvs e.hubEvs h, out := {} }))))

/-- Iterated coordinator: final state and hub after a sequence of ticks. -/
def run : List Env → AppSt → Hub → AppSt × Hub
  | [], st, h => (st, h)
  | e :: rest, st, h =>
      let s := tick e st h
      run rest s.st s.hub

/-- Frames sent to the vision peer across a sequence of ticks. -/
def runVisionSends : List Env → AppSt → Hub → List String
  | [], _, _ => []
  | e :: rest, st, h =>
      let s := tick e st h
      s.out.visionSends ++ runVisionSends rest s.st s.hub

/-! ## Helper lemmas -/

theorem lookupField_setField_same (fields : List (String × JVal)) (k : String) (v : JVal) :
    lookupField (setField fields k v) k = some v := by
  induction fields with
  | nil => simp [setField, lookupField]
  | cons kv rest ih =>
      obtain ⟨k', w⟩ := kv
      by_cases h : k' = k <;> simp [setField, lookupField, h, ih]

theorem lookupField_setField_other (fields : List (String × JVal)) (k k' : String)
    (v : JVal) (hne : k' ≠ k) :
    lookupField (setField fields k v) k' = lookupField fields k' := by
  induction fields with
  | nil =>
      have hk : k ≠ k' := fun h => hne h.symm
      simp [setField, lookupField, hk]
  | cons kv rest ih =>
      obtain ⟨k0, w⟩ := kv
      by_cases h : k0 = k
      · subst h
        have hk : k0 ≠ k' := fun h => hne h.symm
        simp [setField, lookupField, hk]
      · simp [setField, lookupField, h, ih]

/-- Command extracted from a JSON-object app message (nonempty wire text):
the value of its `command` key, untouched by the `param` normalization. -/
theorem parse_command_jsonObj_fst (w : String) (fields : List (String × JVal))
    (hw : w ≠ "") :
    (parse_command (some (Msg.jsonObj w fields))).1 = lookupField fields "command" := by
  unfold parse_command
  simp only [Msg.render, Msg.jsonLoads, if_neg hw]
  cases hct : lookupField fields "container_type" with
  | some v =>
      simpa [hct] using
        lookupField_setField_other fields "param" "command" v (by decide)
  | none =>
      cases hcfg : lookupField fields "config" with
      | some v =>
          simpa [hct, hcfg] using
            lookupField_setField_other fields "param" "command" v (by decide)
      | none => simp [hct, hcfg]

/-- Normalized `param` of a JSON-object app message carrying `container_type`. -/
theorem parse_command_jsonObj_param (w : String) (fields : List (String × JVal))
    (v : JVal) (hw : w ≠ "") (hct : lookupField fields "container_type" = some v) :
    lookupField (parse_command (some (Msg.jsonObj w fields))).2 "param" = some v := by
  unfold parse_command
  simp [Msg.render, hw, Msg.jsonLoads, hct, lookupField_setField_same]

/-- Non-JSON app messages never yield a command. -/
theorem parse_command_raw_fst (str : String) :
    (parse_command (some (Msg.raw str))).1 = none := by
  unfold parse_command
  by_cases h : str = "" <;> simp [Msg.render, Msg.jsonLoads, h]

theorem applyCmds_nil (v : Nat) : applyCmds v [] = v := rfl

theorem applyCmds_append (v : Nat) (l l' : List PlcCmd) :
    applyCmds v (l ++ l') = applyCmds (applyCmds v l) l' := by
  simp [applyCmds, List.foldl_append]

/-- Driver calls that lower command bit `b` (6 or 7): the matching stop
command or a full clear. -/
def lowersBit (b : Nat) (c : PlcCmd) : Prop :=
  c = .full_clear_register ∨
  (b = 6 ∧ c = .radxa_stop_detected_bank) ∨
  (b = 7 ∧ c = .radxa_stop_detected_bottle)

/-- Driver calls that raise command bit `b` (6 or 7): the matching detect
command. -/
def raisesBit (b : Nat) (c : PlcCmd) : Prop :=
  (b = 6 ∧ c = .radxa_detected_bank) ∨ (b = 7 ∧ c = .radxa_detected_bottle)

theorem testBit_apply_of_not_lowers (b : Nat) (hb : b = 6 ∨ b = 7) (c : PlcCmd)
    (hc : ¬ lowersBit b c) (v : Nat) (hv : v.testBit b = true) :
    (c.apply v).testBit b = true := by
  rcases hb with hb | hb <;> subst hb <;>
    cases c <;>
      simp_all [PlcCmd.apply, lowersBit, testBit_set_bit, testBit_clear_bit]

theorem testBit_apply_of_not_raises (b : Nat) (hb : b = 6 ∨ b = 7) (c : PlcCmd)
    (hc : ¬ raisesBit b c) (v : Nat) (hv : v.testBit b = false) :
    (c.apply v).testBit b = false := by
  rcases hb with hb | hb <;> subst hb <;>
    cases c <;>
      simp_all [PlcCmd.apply, raisesBit, testBit_set_bit, testBit_clear_bit,
        Nat.zero_testBit]

theorem lower_mem_of_testBit_drop (b : Nat) (hb : b = 6 ∨ b = 7) (l : List PlcCmd) :
    ∀ v : Nat, v.testBit b = true → (applyCmds v l).testBit b = false →
    ∃ c ∈ l, lowersBit b c := by
  induction l with
  | nil => intro v hv h; rw [applyCmds_nil] at h; rw [hv] at h; cases h
  | cons c rest ih =>
      intro v hv h
      by_cases hc : lowersBit b c
      · exact ⟨c, List.mem_cons_self c rest, hc⟩
      · have hv' : (c.apply v).testBit b = true :=
          testBit_apply_of_not_lowers b hb c hc v hv
        have h' : (applyCmds (c.apply v) rest).testBit b = false := h
        obtain ⟨c', hc', hl⟩ := ih (c.apply v) hv' h'
        exact ⟨c', List.mem_cons_of_mem c hc', hl⟩

theorem testBit_applyCmds_stays_false (b : Nat) (hb : b = 6 ∨ b = 7) (l : List PlcCmd) :
    ∀ v : Nat, v.testBit b = false → (∀ c ∈ l, ¬ raisesBit b c) →
    (applyCmds v l).testBit b = false := by
  induction l with
  | nil => intro v hv _; rw [applyCmds_nil]; exact hv
  | cons c rest ih =>
      intro v hv hl
      have : (c.apply v).testBit b = false :=
        testBit_apply_of_not_raises b hb c (hl c (List.mem_cons_self c rest)) v hv
      exact ih (c.apply v) this (fun c' hc' => hl c' (List.mem_cons_of_mem c hc'))

/-- Relation between two working configurations: the later one extends the
driver-call trace by calls drawn from `A`, with the command register evolving
accordingly and nothing else about the register. -/
def ExtendsIn (A : List PlcCmd) (s t : Step) : Prop :=
  ∃ l, t.out.plcCmds = s.out.plcCmds ++ l ∧
       t.st.cmdReg = applyCmds s.st.cmdReg l ∧
       ∀ c ∈ l, c ∈ A

theorem ExtendsIn.of_eq {A : List PlcCmd} {s t : Step}
    (h1 : t.out.plcCmds = s.out.plcCmds) (h2 : t.st.cmdReg = s.st.cmdReg) :
    ExtendsIn A s t :=
  ⟨[], by simpa using h1, by simpa [applyCmds] using h2, by simp⟩

theorem ExtendsIn.refl {A : List PlcCmd} {s : Step} : ExtendsIn A s s :=
  ExtendsIn.of_eq (Eq.refl _) (Eq.refl _)

theorem ExtendsIn.trans {A : List PlcCmd} {s t u : Step}
    (h1 : ExtendsIn A s t) (h2 : ExtendsIn A t u) : ExtendsIn A s u := by
  obtain ⟨l1, hp1, hc1, hA1⟩ := h1
  obtain ⟨l2, hp2, hc2, hA2⟩ := h2
  refine ⟨l1 ++ l2, ?_, ?_, ?_⟩
  · rw [hp2, hp1, List.append_assoc]
  · rw [hc2, hc1, applyCmds_append]
  · intro c hc
    rcases List.mem_append.mp hc with h | h
    · exact hA1 c h
    · exact hA2 c h

theorem ExtendsIn.mono {A B : List PlcCmd} {s t : Step} (hAB : ∀ c ∈ A, c ∈ B)
    (h : ExtendsIn A s t) : ExtendsIn B s t := by
  obtain ⟨l, hp, hc, hA⟩ := h
  exact ⟨l, hp, hc, fun c hcl => hAB c (hA c hcl)⟩

theorem ExtendsIn.plcCmd {A : List PlcCmd} {s : Step} {c : PlcCmd} (hc : c ∈ A) :
    ExtendsIn A s (plcCmd s c) :=
  ⟨[c], by simp [Fandomat.plcCmd], by simp [Fandomat.plcCmd, applyCmds],
   by simpa using hc⟩

/-! ## Frame lemmas: which parts of the configuration each phase can touch -/

/-- Relation asserting the arming-relevant data is untouched: the
single-inference guard and the frames sent to vision. -/
def ArmQuiet (s t : Step) : Prop :=
  t.st.inference_requested = s.st.inference_requested ∧
  t.out.visionSends = s.out.visionSends

theorem ArmQuiet.refl2 {s : Step} : ArmQuiet s s := ⟨rfl, rfl⟩

theorem ArmQuiet.trans2 {s t u : Step} (h1 : ArmQuiet s t) (h2 : ArmQuiet t u) :
    ArmQuiet s u := ⟨h2.1.trans h1.1, h2.2.trans h1.2⟩

theorem armQuiet_sendEventToApp (s : Step) (n : String) (d : List (String × JVal)) :
    ArmQuiet s (sendEventToApp s n d) := ⟨rfl, rfl⟩

theorem armQuiet_plcCmd (s : Step) (c : PlcCmd) : ArmQuiet s (plcCmd s c) := ⟨rfl, rfl⟩

theorem armQuiet_handle_get_photo (s : Step) : ArmQuiet s (handle_get_photo s) := ⟨rfl, rfl⟩

theorem armQuiet_handle_get_device_info (p : PlcIn) (s : Step) :
    ArmQuiet s (handle_get_device_info p s) := ⟨rfl, rfl⟩

theorem armQuiet_handle_device_init (c : Option JVal) (s : Step) :
    ArmQuiet s (handle_device_init c s) := by
  unfold handle_device_init
  split_ifs <;> exact ⟨rfl, rfl⟩

theorem armQuiet_handle_container_dump (now : ℚ) (c : Option JVal) (s : Step) :
    ArmQuiet s (handle_container_dump now c s) := by
  unfold handle_container_dump
  split_ifs <;> exact ⟨rfl, rfl⟩

theorem armQuiet_handle_container_unloaded (c : Option JVal) (s : Step) :
    ArmQuiet s (handle_container_unloaded c s) := by
  unfold handle_container_unloaded
  split_ifs <;> exact ⟨rfl, rfl⟩

theorem lookupHandler_mem (l : List (String × (Step → Step))) (cmd : JVal)
    (f : Step → Step) (h : lookupHandler l cmd = some f) : ∃ k, (k, f) ∈ l := by
  induction l with
  | nil => simp [lookupHandler] at h
  | cons kv rest ih =>
      obtain ⟨k, g⟩ := kv
      by_cases hc : cmd = .str k
      · simp [lookupHandler, hc] at h
        exact ⟨k, by simp [h]⟩
      · simp [lookupHandler, hc] at h
        obtain ⟨k', hk'⟩ := ih h
        exact ⟨k', List.mem_cons_of_mem _ hk'⟩

theorem armQuiet_registry (e : Env) (params : List (String × JVal)) (k : String)
    (f : Step → Step) (hk : (k, f) ∈ command_handlers e params) (s : Step) :
    ArmQuiet s (f s) := by
  fin_cases hk <;>
    first
      | exact armQuiet_handle_get_photo s
      | exact armQuiet_handle_get_device_info e.plc s
      | exact armQuiet_handle_device_init _ s
      | exact armQuiet_handle_container_dump e.now _ s
      | exact armQuiet_handle_container_unloaded _ s
      | exact ⟨rfl, rfl⟩

theorem armQuiet_dispatch_command (e : Env) (c : JVal) (params : List (String × JVal))
    (s : Step) : ArmQuiet s (dispatch_command e c params s) := by
  unfold dispatch_command
  cases hl : lookupHandler (command_handlers e params) c with
  | none => exact ⟨rfl, rfl⟩
  | some f =>
      obtain ⟨k, hk⟩ := lookupHandler_mem _ _ _ hl
      exact armQuiet_registry e params k f hk s

theorem armQuiet_dumping_step (now : ℚ) (sensor : Nat) (ty : String)
    (counter : Nat) (ec em : String) (s : Step) :
    ArmQuiet s (dumping_step now sensor ty counter ec em s) := by
  unfold dumping_step
  split_ifs <;> exact ⟨rfl, rfl⟩

theorem armQuiet_handle_dumping_state (e : Env) (s : Step) :
    ArmQuiet s (handle_dumping_state e s) := by
  unfold handle_dumping_state
  cases hst : s.st.state <;> exact armQuiet_dumping_step ..

theorem armQuiet_bottle_timeout_check (now : ℚ) (s : Step) :
    ArmQuiet s (bottle_timeout_check now s) := by
  unfold bottle_timeout_check
  split_ifs <;> exact ⟨rfl, rfl⟩

theorem armQuiet_bank_timeout_check (now : ℚ) (s : Step) :
    ArmQuiet s (bank_timeout_check now s) := by
  unfold bank_timeout_check
  split_ifs <;> exact ⟨rfl, rfl⟩

theorem armQuiet_carriage_timeout_checks (now : ℚ) (s : Step) :
    ArmQuiet s (carriage_timeout_checks now s) :=
  ArmQuiet.trans2 (armQuiet_bottle_timeout_check now s)
    (armQuiet_bank_timeout_check now _)

theorem armQuiet_handle_vision_response_with_events (now : ℚ) (m : Msg) (s : Step) :
    ArmQuiet s (handle_vision_response_with_events now m s) := by
  unfold handle_vision_response_with_events
  split_ifs <;> exact ⟨rfl, rfl⟩

theorem armQuiet_wv_store (s : Step) : ArmQuiet s (wv_store s) := by
  unfold wv_store
  rcases hg : Hub.get_command s.hub "vision" with ⟨vr, h1⟩
  rcases vr with _ | m <;> dsimp only <;>
    first
      | exact ⟨rfl, rfl⟩
      | split_ifs <;> exact ⟨rfl, rfl⟩

theorem armQuiet_wv_resolve (p : PlcIn) (s : Step) : ArmQuiet s (wv_resolve p s) := by
  unfold wv_resolve
  split_ifs <;> exact ⟨rfl, rfl⟩

theorem armQuiet_wv_decide (now : ℚ) (s : Step) : ArmQuiet s (wv_decide now s) := by
  unfold wv_decide
  split_ifs with h1 h2 h3
  · cases hp : s.st.pending_vision_response with
    | none => exact ⟨rfl, rfl⟩
    | some m =>
        exact ArmQuiet.trans2
          (armQuiet_handle_vision_response_with_events now m s) ⟨rfl, rfl⟩
  · exact ⟨rfl, rfl⟩
  · exact ⟨rfl, rfl⟩
  · exact ⟨rfl, rfl⟩

theorem armQuiet_waiting_vision_body (e : Env) (s : Step) :
    ArmQuiet s (waiting_vision_body e s) :=
  ArmQuiet.trans2 (armQuiet_wv_store s)
    (ArmQuiet.trans2 (armQuiet_wv_resolve e.plc _) (armQuiet_wv_decide e.now _))

theorem armQuiet_handle_error_state_commands (e : Env) (s : Step) :
    ArmQuiet s (handle_error_state_commands e s) := by
  unfold handle_error_state_commands
  rcases hg : Hub.get_command s.hub "app" with ⟨am, h1⟩
  dsimp only
  rcases parse_command am with ⟨ac, params⟩
  rcases ac with _ | c
  · exact ⟨rfl, rfl⟩
  · dsimp only
    split_ifs <;>
      first
        | exact ⟨rfl, rfl⟩
        | exact ArmQuiet.trans2 (t := { s with hub := h1 }) ⟨rfl, rfl⟩
            (armQuiet_handle_get_photo _)
        | exact ArmQuiet.trans2 (t := { s with hub := h1 }) ⟨rfl, rfl⟩
            (armQuiet_handle_get_device_info e.plc _)
        | exact ArmQuiet.trans2 (t := { s with hub := h1 }) ⟨rfl, rfl⟩
            (armQuiet_handle_container_dump e.now _ _)

theorem armQuiet_check_receiver_state (p : PlcIn) (s : Step) :
    ArmQuiet s (check_receiver_state p s) := by
  unfold check_receiver_state
  dsimp only
  split_ifs <;> exact ⟨rfl, rfl⟩

theorem armQuiet_check_hardware_errors (p : PlcIn) (s : Step) :
    ArmQuiet s (check_hardware_errors p s) := by
  unfold check_hardware_errors
  dsimp only
  split_ifs <;> exact ⟨rfl, rfl⟩

theorem armQuiet_idle_connect_check (p : PlcIn) (s : Step) :
    ArmQuiet s (idle_connect_check p s) := by
  unfold idle_connect_check
  rcases hg : Hub.is_client_just_connected s.hub "app" with ⟨jc, h1⟩
  dsimp only
  split_ifs
  · exact ArmQuiet.trans2 (t := { s with hub := h1 }) ⟨rfl, rfl⟩
      (armQuiet_handle_get_device_info p _)
  · exact ⟨rfl, rfl⟩

theorem armQuiet_idle_veil_update (p : PlcIn) (s : Step) :
    ArmQuiet s (idle_veil_update p s) := by
  unfold idle_veil_update
  split_ifs <;> exact ⟨rfl, rfl⟩

theorem armQuiet_idle_dispatch (e : Env) (s : Step) :
    ArmQuiet s (idle_dispatch e s) := by
  unfold idle_dispatch
  rcases hg : Hub.get_command s.hub "app" with ⟨am, h2⟩
  dsimp only
  rcases parse_command am with ⟨ac, params⟩
  rcases ac with _ | c
  · exact ⟨rfl, rfl⟩
  · dsimp only
    split_ifs
    · exact ArmQuiet.trans2 (t := { s with hub := h2 }) ⟨rfl, rfl⟩
        (armQuiet_dispatch_command e c params _)
    · exact ⟨rfl, rfl⟩

/-! ## Driver-call accounting per phase -/

/-- Driver calls the dumping handler can issue. -/
def dumpingCmds : List PlcCmd := [.full_clear_register]

/-- Driver calls the latch-timeout checks can issue. -/
def timeoutCmds : List PlcCmd :=
  [.radxa_stop_detected_bottle, .radxa_stop_detected_bank]

/-- Driver calls the vision fusion can issue. -/
def fusionCmds : List PlcCmd := [.radxa_detected_bottle, .radxa_detected_bank]

/-- Driver calls reachable through the app-command dispatcher (including the
reduced ERROR-state set). -/
def dispatchCmds : List PlcCmd :=
  [.full_clear_register, .force_move_carriage_left, .force_move_carriage_right,
   .weight_error_reset, .reset_weight_reading, .reset_bottle_counters,
   .reset_bank_counters]

/-- All driver calls. -/
def allCmds : List PlcCmd :=
  [.lock_and_block_carriage, .weight_error_reset, .reset_bank_counters,
   .reset_bottle_counters, .force_move_carriage_left, .force_move_carriage_right,
   .radxa_detected_bank, .radxa_detected_bottle, .radxa_stop_detected_bank,
   .radxa_stop_detected_bottle, .reset_weight_reading, .full_clear_register]

theorem mem_allCmds (c : PlcCmd) : c ∈ allCmds := by
  cases c <;> simp [allCmds]

theorem ExtendsIn.toAll {A : List PlcCmd} {s t : Step} (h : ExtendsIn A s t) :
    ExtendsIn allCmds s t :=
  h.mono (fun c _ => mem_allCmds c)

theorem extendsIn_dumping_step (now : ℚ) (sensor : Nat) (ty : String)
    (counter : Nat) (ec em : String) (s : Step) :
    ExtendsIn dumpingCmds s (dumping_step now sensor ty counter ec em s) := by
  unfold dumping_step
  split_ifs
  · exact ⟨[.full_clear_register], rfl, rfl, by simp [dumpingCmds]⟩
  · exact ⟨[.full_clear_register], rfl, rfl, by simp [dumpingCmds]⟩
  · exact ExtendsIn.of_eq rfl rfl

theorem extendsIn_handle_dumping_state (e : Env) (s : Step) :
    ExtendsIn dumpingCmds s (handle_dumping_state e s) := by
  unfold handle_dumping_state
  cases hst : s.st.state <;> exact extendsIn_dumping_step ..

theorem extendsIn_tick_dumping (e : Env) (s : Step) :
    ExtendsIn dumpingCmds s (tick_dumping e s) := by
  unfold tick_dumping
  split_ifs
  · exact extendsIn_handle_dumping_state e s
  · exact ExtendsIn.refl

theorem extendsIn_bottle_timeout_check (now : ℚ) (s : Step) :
    ExtendsIn timeoutCmds s (bottle_timeout_check now s) := by
  unfold bottle_timeout_check
  split_ifs
  · exact ⟨[.radxa_stop_detected_bottle], rfl, rfl, by simp [timeoutCmds]⟩
  · exact ExtendsIn.of_eq rfl rfl
  · exact ExtendsIn.of_eq rfl rfl

theorem extendsIn_bank_timeout_check (now : ℚ) (s : Step) :
    ExtendsIn timeoutCmds s (bank_timeout_check now s) := by
  unfold bank_timeout_check
  split_ifs
  · exact ⟨[.radxa_stop_detected_bank], rfl, rfl, by simp [timeoutCmds]⟩
  · exact ExtendsIn.of_eq rfl rfl
  · exact ExtendsIn.of_eq rfl rfl

theorem extendsIn_carriage_timeout_checks (now : ℚ) (s : Step) :
    ExtendsIn timeoutCmds s (carriage_timeout_checks now s) :=
  (extendsIn_bottle_timeout_check now s).trans
    (extendsIn_bank_timeout_check now _)

theorem extendsIn_handle_vision_response_with_events (now : ℚ) (m : Msg) (s : Step) :
    ExtendsIn fusionCmds s (handle_vision_response_with_events now m s) := by
  unfold handle_vision_response_with_events
  split_ifs
  · exact ExtendsIn.of_eq rfl rfl
  · exact ⟨[.radxa_detected_bottle], rfl, rfl, by simp [fusionCmds]⟩
  · exact ⟨[.radxa_detected_bank], rfl, rfl, by simp [fusionCmds]⟩
  · exact ExtendsIn.of_eq rfl rfl

theorem extendsIn_wv_store (s : Step) : ExtendsIn ([] : List PlcCmd) s (wv_store s) := by
  unfold wv_store
  rcases hg : Hub.get_command s.hub "vision" with ⟨vr, h1⟩
  rcases vr with _ | m <;> dsimp only <;>
    first
      | exact ExtendsIn.of_eq rfl rfl
      | split_ifs <;> exact ExtendsIn.of_eq rfl rfl

theorem extendsIn_wv_resolve (p : PlcIn) (s : Step) :
    ExtendsIn ([] : List PlcCmd) s (wv_resolve p s) := by
  unfold wv_resolve
  split_ifs <;> exact ExtendsIn.of_eq rfl rfl

theorem extendsIn_wv_decide (now : ℚ) (s : Step) :
    ExtendsIn fusionCmds s (wv_decide now s) := by
  unfold wv_decide
  split_ifs with h1 h2 h3
  · cases hp : s.st.pending_vision_response with
    | none => exact ExtendsIn.of_eq rfl rfl
    | some m =>
        exact (extendsIn_handle_vision_response_with_events now m s).trans
          (ExtendsIn.of_eq rfl rfl)
  · exact ExtendsIn.of_eq rfl rfl
  · exact ExtendsIn.of_eq rfl rfl
  · exact ExtendsIn.of_eq rfl rfl

theorem extendsIn_waiting_vision_body (e : Env) (s : Step) :
    ExtendsIn fusionCmds s (waiting_vision_body e s) :=
  ((extendsIn_wv_store s).mono (by simp)).trans
    (((extendsIn_wv_resolve e.plc _).mono (by simp)).trans
      (extendsIn_wv_decide e.now _))

theorem extendsIn_handle_get_photo (s : Step) :
    ExtendsIn ([] : List PlcCmd) s (handle_get_photo s) := ExtendsIn.of_eq rfl rfl

theorem extendsIn_handle_get_device_info (p : PlcIn) (s : Step) :
    ExtendsIn ([] : List PlcCmd) s (handle_get_device_info p s) :=
  ExtendsIn.of_eq rfl rfl

theorem extendsIn_handle_device_init (c : Option JVal) (s : Step) :
    ExtendsIn ([] : List PlcCmd) s (handle_device_init c s) := by
  unfold handle_device_init
  split_ifs <;> exact ExtendsIn.of_eq rfl rfl

theorem extendsIn_handle_container_dump (now : ℚ) (c : Option JVal) (s : Step) :
    ExtendsIn dispatchCmds s (handle_container_dump now c s) := by
  unfold handle_container_dump
  split_ifs
  · exact ⟨[.force_move_carriage_left], rfl, rfl, by simp [dispatchCmds]⟩
  · exact ⟨[.force_move_carriage_right], rfl, rfl, by simp [dispatchCmds]⟩
  · exact ExtendsIn.of_eq rfl rfl

theorem extendsIn_handle_container_unloaded (c : Option JVal) (s : Step) :
    ExtendsIn dispatchCmds s (handle_container_unloaded c s) := by
  unfold handle_container_unloaded
  split_ifs
  · exact ⟨[.reset_bottle_counters], rfl, rfl, by simp [dispatchCmds]⟩
  · exact ⟨[.reset_bank_counters], rfl, rfl, by simp [dispatchCmds]⟩
  · exact ExtendsIn.of_eq rfl rfl

theorem extendsIn_registry (e : Env) (params : List (String × JVal)) (k : String)
    (f : Step → Step) (hk : (k, f) ∈ command_handlers e params) (s : Step) :
    ExtendsIn dispatchCmds s (f s) := by
  fin_cases hk <;>
    first
      | exact (extendsIn_handle_get_photo s).mono (by simp)
      | exact (extendsIn_handle_get_device_info e.plc s).mono (by simp)
      | exact (extendsIn_handle_device_init _ s).mono (by simp)
      | exact extendsIn_handle_container_dump e.now _ s
      | exact extendsIn_handle_container_unloaded _ s
      | exact ExtendsIn.of_eq rfl rfl
      | exact ExtendsIn.plcCmd (by simp [dispatchCmds])

theorem extendsIn_dispatch_command (e : Env) (c : JVal)
    (params : List (String × JVal)) (s : Step) :
    ExtendsIn dispatchCmds s (dispatch_command e c params s) := by
  unfold dispatch_command
  cases hl : lookupHandler (command_handlers e params) c with
  | none => exact ExtendsIn.of_eq rfl rfl
  | some f =>
      obtain ⟨k, hk⟩ := lookupHandler_mem _ _ _ hl
      exact extendsIn_registry e params k f hk s

theorem extendsIn_handle_error_state_commands (e : Env) (s : Step) :
    ExtendsIn dispatchCmds s (handle_error_state_commands e s) := by
  unfold handle_error_state_commands
  rcases hg : Hub.get_command s.hub "app" with ⟨am, h1⟩
  dsimp only
  rcases parse_command am with ⟨ac, params⟩
  rcases ac with _ | c
  · exact ExtendsIn.of_eq rfl rfl
  · dsimp only
    split_ifs <;>
      first
        | exact ExtendsIn.of_eq rfl rfl
        | exact ExtendsIn.trans (t := { s with hub := h1 })
            (ExtendsIn.of_eq rfl rfl) ((extendsIn_handle_get_photo _).mono (by simp))
        | exact ExtendsIn.trans (t := { s with hub := h1 })
            (ExtendsIn.of_eq rfl rfl)
            ((extendsIn_handle_get_device_info e.plc _).mono (by simp))
        | exact ExtendsIn.trans (t := { s with hub := h1 })
            (ExtendsIn.of_eq rfl rfl) (extendsIn_handle_container_dump e.now _ _)

theorem extendsIn_check_receiver_state (p : PlcIn) (s : Step) :
    ExtendsIn ([] : List PlcCmd) s (check_receiver_state p s) := by
  unfold check_receiver_state
  dsimp only
  split_ifs <;> exact ExtendsIn.of_eq rfl rfl

theorem extendsIn_check_hardware_errors (p : PlcIn) (s : Step) :
    ExtendsIn ([] : List PlcCmd) s (check_hardware_errors p s) := by
  unfold check_hardware_errors
  dsimp only
  split_ifs <;> exact ExtendsIn.of_eq rfl rfl

theorem extendsIn_idle_connect_check (p : PlcIn) (s : Step) :
    ExtendsIn ([] : List PlcCmd) s (idle_connect_check p s) := by
  unfold idle_connect_check
  rcases hg : Hub.is_client_just_connected s.hub "app" with ⟨jc, h1⟩
  dsimp only
  split_ifs
  · exact ExtendsIn.trans (t := { s with hub := h1 })
      (ExtendsIn.of_eq rfl rfl) (extendsIn_handle_get_device_info p _)
  · exact ExtendsIn.of_eq rfl rfl

theorem extendsIn_idle_guard_reset (p : PlcIn) (s : Step) :
    ExtendsIn ([] : List PlcCmd) s (idle_guard_reset p s) := by
  unfold idle_guard_reset
  split_ifs <;> exact ExtendsIn.of_eq rfl rfl

theorem extendsIn_idle_arm (e : Env) (s : Step) :
    ExtendsIn ([] : List PlcCmd) s (idle_arm e s) := by
  unfold idle_arm
  split_ifs <;> exact ExtendsIn.of_eq rfl rfl

theorem extendsIn_idle_veil_update (p : PlcIn) (s : Step) :
    ExtendsIn ([] : List PlcCmd) s (idle_veil_update p s) := by
  unfold idle_veil_update
  split_ifs <;> exact ExtendsIn.of_eq rfl rfl

theorem extendsIn_idle_dispatch (e : Env) (s : Step) :
    ExtendsIn dispatchCmds s (idle_dispatch e s) := by
  unfold idle_dispatch
  rcases hg : Hub.get_command s.hub "app" with ⟨am, h2⟩
  dsimp only
  rcases parse_command am with ⟨ac, params⟩
  rcases ac with _ | c
  · exact ExtendsIn.of_eq rfl rfl
  · dsimp only
    split_ifs
    · exact ExtendsIn.trans (t := { s with hub := h2 })
        (ExtendsIn.of_eq rfl rfl) (extendsIn_dispatch_command e c params _)
    · exact ExtendsIn.of_eq rfl rfl

theorem extendsIn_idle_body (e : Env) (s : Step) :
    ExtendsIn dispatchCmds s (idle_body e s) :=
  (((((extendsIn_idle_connect_check e.plc s).mono (by simp)).trans
    ((extendsIn_idle_guard_reset e.plc _).mono (by simp))).trans
    ((extendsIn_idle_arm e _).mono (by simp))).trans
    ((extendsIn_idle_veil_update e.plc _).mono (by simp))).trans
    (extendsIn_idle_dispatch e _)

/-- When the machine is not in WAITING_VISION at the branch, no fusion runs
and the branch issues only dispatcher calls. -/
theorem extendsIn_tick_branch_not_waiting (e : Env) (s : Step)
    (hs : s.st.state ≠ .waiting_vision) :
    ExtendsIn dispatchCmds s (tick_branch e s) := by
  unfold tick_branch
  split_ifs with h1 h2 h3
  · exact absurd h1 hs
  · exact extendsIn_handle_error_state_commands e s
  · exact extendsIn_idle_body e s
  · exact ExtendsIn.of_eq rfl rfl

theorem extendsIn_tick_branch (e : Env) (s : Step) :
    ExtendsIn allCmds s (tick_branch e s) := by
  unfold tick_branch
  split_ifs
  · exact (extendsIn_waiting_vision_body e s).toAll
  · exact (extendsIn_handle_error_state_commands e s).toAll
  · exact (extendsIn_idle_body e s).toAll
  · exact ExtendsIn.of_eq rfl rfl

/-- One tick issues exactly the driver calls recorded in its trace, and the
command register after the tick is their fold over the register before. -/
theorem tick_cmdReg_eq_applyCmds (e : Env) (st : AppSt) (h : Hub) :
    (tick e st h).st.cmdReg = applyCmds st.cmdReg (tick e st h).out.plcCmds := by
  have A : ExtendsIn allCmds
      { st := st, hub := deliverHubEvs e.hubEvs h, out := {} } (tick e st h) :=
    ((((extendsIn_tick_dumping e _).toAll).trans
      ((extendsIn_carriage_timeout_checks e.now _).toAll)).trans
      (extendsIn_tick_branch e _)).trans
      (((extendsIn_check_receiver_state e.plc _).toAll).trans
        ((extendsIn_check_hardware_errors e.plc _).toAll))
  obtain ⟨l, hp, hc, -⟩ := A
  rw [hc, hp]
  rfl

/-! ## Single-inference suppression machinery -/

/-- With the receiver occupied, block b of the IDLE branch does nothing. -/
theorem idle_guard_reset_occupied (p : PlcIn) (s : Step)
    (hocc : get_bit p.status 7 = 1 ∨ get_bit p.status 6 = 1) :
    idle_guard_reset p s = s := by
  unfold idle_guard_reset
  simp [hocc]

/-- With the single-inference guard set, the arm block does nothing. -/
theorem idle_arm_guarded (e : Env) (s : Step)
    (hg : s.st.inference_requested = true) : idle_arm e s = s := by
  unfold idle_arm
  simp [hg]

/-- The arm block either leaves the configuration unchanged or (having armed)
leaves the guard set. -/
theorem idle_arm_dichotomy (e : Env) (s : Step) :
    (idle_arm e s).st.inference_requested = true ∨ idle_arm e s = s := by
  unfold idle_arm
  by_cases hc : s.st.prev_veil_state = 1 ∧ get_bit e.plc.status 0 = 0 ∧
      ¬ s.st.inference_requested
  · rw [if_pos hc]; left; rfl
  · rw [if_neg hc]; right; rfl

theorem armQuiet_idle_body_occupied (e : Env) (s : Step)
    (hocc : get_bit e.plc.status 7 = 1 ∨ get_bit e.plc.status 6 = 1)
    (hg : s.st.inference_requested = true) :
    ArmQuiet s (idle_body e s) := by
  unfold idle_body
  rw [idle_guard_reset_occupied e.plc _ hocc,
    idle_arm_guarded e _ (by rw [(armQuiet_idle_connect_check e.plc s).1]; exact hg)]
  exact (armQuiet_idle_connect_check e.plc s).trans2
    ((armQuiet_idle_veil_update e.plc _).trans2 (armQuiet_idle_dispatch e _))

theorem armQuiet_tick_branch_occupied (e : Env) (s : Step)
    (hocc : get_bit e.plc.status 7 = 1 ∨ get_bit e.plc.status 6 = 1)
    (hg : s.st.inference_requested = true) :
    ArmQuiet s (tick_branch e s) := by
  unfold tick_branch
  split_ifs
  · exact armQuiet_waiting_vision_body e s
  · exact armQuiet_handle_error_state_commands e s
  · exact armQuiet_idle_body_occupied e s hocc hg
  · exact ArmQuiet.refl2

theorem armQuiet_tick_dumping (e : Env) (s : Step) :
    ArmQuiet s (tick_dumping e s) := by
  unfold tick_dumping
  split_ifs
  · exact armQuiet_handle_dumping_state e s
  · exact ArmQuiet.refl2

/-- An occupied tick with the guard set sends nothing to vision and keeps the
guard set. -/
theorem tick_occupied_guarded (e : Env) (st : AppSt) (h : Hub)
    (hocc : get_bit e.plc.status 7 = 1 ∨ get_bit e.plc.status 6 = 1)
    (hg : st.inference_requested = true) :
    (tick e st h).st.inference_requested = true ∧
    (tick e st h).out.visionSends = [] := by
  have A1 := armQuiet_tick_dumping e
    { st := st, hub := deliverHubEvs e.hubEvs h, out := {} }
  have A2 := A1.trans2 (armQuiet_carriage_timeout_checks e.now _)
  have A3 := A2.trans2
    (armQuiet_tick_branch_occupied e _ hocc (by rw [A2.1]; exact hg))
  have A4 := A3.trans2 (armQuiet_check_receiver_state e.plc _)
  have A5 := A4.trans2 (armQuiet_check_hardware_errors e.plc _)
  exact ⟨by rw [show (tick e st h).st.inference_requested = _ from A5.1]; exact hg,
         A5.2⟩

/-- Over any run of occupied ticks starting with the guard set, nothing is
ever sent to vision. -/
theorem runVisionSends_occupied (es : List Env) :
    ∀ (st : AppSt) (h : Hub), st.inference_requested = true →
    (∀ e ∈ es, get_bit e.plc.status 7 = 1 ∨ get_bit e.plc.status 6 = 1) →
    runVisionSends es st h = [] := by
  induction es with
  | nil => intro st h _ _; rfl
  | cons e rest ih =>
      intro st h hg hocc
      have ht := tick_occupied_guarded e st h (hocc e (List.mem_cons_self e rest)) hg
      show (tick e st h).out.visionSends ++
        runVisionSends rest (tick e st h).st (tick e st h).hub = []
      rw [ht.2, ih _ _ ht.1 (fun e' he' => hocc e' (List.mem_cons_of_mem _ he')),
        List.nil_append]

theorem out_idle_guard_reset (p : PlcIn) (s : Step) :
    (idle_guard_reset p s).out = s.out := by
  unfold idle_guard_reset
  split_ifs <;> rfl

/-- A tick that sent something to vision armed an inference run, so it leaves
the single-inference guard set. -/
theorem tick_visionSends_guard (e : Env) (st : AppSt) (h : Hub)
    (harm : (tick e st h).out.visionSends ≠ []) :
    (tick e st h).st.inference_requested = true := by
  have A2 := (armQuiet_tick_dumping e
    { st := st, hub := deliverHubEvs e.hubEvs h, out := {} }).trans2
    (armQuiet_carriage_timeout_checks e.now _)
  have A45 : ArmQuiet (tick_branch e (carriage_timeout_checks e.now
      (tick_dumping e { st := st, hub := deliverHubEvs e.hubEvs h, out := {} })))
      (tick e st h) :=
    (armQuiet_check_receiver_state e.plc _).trans2
      (armQuiet_check_hardware_errors e.plc _)
  set s2 := carriage_timeout_checks e.now
    (tick_dumping e { st := st, hub := deliverHubEvs e.hubEvs h, out := {} }) with hs2
  have hsends2 : s2.out.visionSends = [] := A2.2
  rw [A45.1]
  revert A45
  unfold tick_branch
  split_ifs with h1 h2 h3
  · intro A45
    exact absurd (A45.2.trans ((armQuiet_waiting_vision_body e s2).2.trans hsends2))
      harm
  · intro A45
    exact absurd
      (A45.2.trans ((armQuiet_handle_error_state_commands e s2).2.trans hsends2))
      harm
  · intro A45
    unfold idle_body at A45 ⊢
    rcases idle_arm_dichotomy e (idle_guard_reset e.plc (idle_connect_check e.plc s2))
      with hd | hd
    · have Atail := (armQuiet_idle_veil_update e.plc
          (idle_arm e (idle_guard_reset e.plc (idle_connect_check e.plc s2)))).trans2
        (armQuiet_idle_dispatch e (idle_veil_update e.plc
          (idle_arm e (idle_guard_reset e.plc (idle_connect_check e.plc s2)))))
      rw [Atail.1]
      exact hd
    · rw [hd] at A45 ⊢
      have hsall : (idle_dispatch e (idle_veil_update e.plc
          (idle_guard_reset e.plc (idle_connect_check e.plc s2)))).out.visionSends
          = [] := by
        rw [((armQuiet_idle_veil_update e.plc _).trans2 (armQuiet_idle_dispatch e _)).2,
          out_idle_guard_reset, (armQuiet_idle_connect_check e.plc s2).2, hsends2]
      exact absurd (A45.2.trans hsall) harm
  · intro A45
    exact absurd (A45.2.trans hsends2) harm

/-! ## Phase identities and fusion characterization -/

theorem tick_dumping_id (e : Env) (s : Step)
    (h1 : s.st.state ≠ .dumping_plastic) (h2 : s.st.state ≠ .dumping_aluminum) :
    tick_dumping e s = s := by
  unfold tick_dumping
  simp [h1, h2]

theorem bottle_timeout_check_id (now : ℚ) (s : Step)
    (hb : s.st.carriage_moving_bottle = false) :
    bottle_timeout_check now s = s := by
  unfold bottle_timeout_check
  simp [hb]

theorem bank_timeout_check_id (now : ℚ) (s : Step)
    (hk : s.st.carriage_moving_bank = false) :
    bank_timeout_check now s = s := by
  unfold bank_timeout_check
  simp [hk]

theorem tick_branch_waiting (e : Env) (s : Step)
    (hs : s.st.state = .waiting_vision) :
    tick_branch e s = waiting_vision_body e s := by
  unfold tick_branch
  simp [hs]

theorem wv_store_pending_some (s : Step) (m0 : Msg)
    (hp : s.st.pending_vision_response = some m0) :
    (wv_store s).st = s.st ∧ (wv_store s).out = s.out := by
  unfold wv_store
  rcases hg : Hub.get_command s.hub "vision" with ⟨vr, h1⟩
  rcases vr with _ | m <;> dsimp only
  · exact ⟨rfl, rfl⟩
  · rw [if_neg (by simp [hp])]
    exact ⟨rfl, rfl⟩

theorem wv_resolve_det_some (p : PlcIn) (s : Step) (d : String)
    (hd : s.st.current_plc_detection = some d) :
    wv_resolve p s = s := by
  unfold wv_resolve
  simp [hd]

theorem wv_decide_fused (now : ℚ) (s : Step) (m : Msg)
    (hp : s.st.pending_vision_response = some m)
    (hd : s.st.current_plc_detection.isSome = true) :
    wv_decide now s =
      (let t := handle_vision_response_with_events now m s
       { t with st := { t.st with
          state := .idle, vision_request_time := none,
          current_plc_detection := none, pending_vision_response := none } }) := by
  unfold wv_decide
  rw [if_pos ⟨by simp [hp], hd⟩]
  simp only [hp]

theorem check_receiver_state_st_frame (p : PlcIn) (s : Step) :
    (check_receiver_state p s).st.state = s.st.state ∧
    (check_receiver_state p s).st.cmdReg = s.st.cmdReg ∧
    (check_receiver_state p s).st.pending_vision_response =
      s.st.pending_vision_response ∧
    (check_receiver_state p s).st.current_plc_detection =
      s.st.current_plc_detection ∧
    (check_receiver_state p s).st.vision_request_time = s.st.vision_request_time := by
  unfold check_receiver_state
  dsimp only
  split_ifs <;> exact ⟨rfl, rfl, rfl, rfl, rfl⟩

theorem check_hardware_errors_st_frame (p : PlcIn) (s : Step) :
    (check_hardware_errors p s).st.state = s.st.state ∧
    (check_hardware_errors p s).st.cmdReg = s.st.cmdReg ∧
    (check_hardware_errors p s).st.pending_vision_response =
      s.st.pending_vision_response ∧
    (check_hardware_errors p s).st.current_plc_detection =
      s.st.current_plc_detection ∧
    (check_hardware_errors p s).st.vision_request_time = s.st.vision_request_time := by
  unfold check_hardware_errors
  dsimp only
  split_ifs <;> exact ⟨rfl, rfl, rfl, rfl, rfl⟩

theorem mem_events_check_receiver_state (p : PlcIn) (s : Step) (ev : Event)
    (hev : ev ∈ s.out.events) : ev ∈ (check_receiver_state p s).out.events := by
  unfold check_receiver_state
  dsimp only
  split_ifs <;> simp [sendEventToApp, hev]

theorem mem_events_check_hardware_errors (p : PlcIn) (s : Step) (ev : Event)
    (hev : ev ∈ s.out.events) : ev ∈ (check_hardware_errors p s).out.events := by
  unfold check_hardware_errors
  dsimp only
  split_ifs <;> simp [sendEventToApp, hev]

/-- A fused WAITING_VISION tick reduces to the fusion handler, the IDLE
transition with field clearing, and the edge checks; the intermediate
configuration agrees with the incoming coordinator state and carries no
output yet. -/
theorem tick_waiting_fused (e : Env) (st : AppSt) (h : Hub) (m0 : Msg)
    (hst : st.state = .waiting_vision)
    (hpend : st.pending_vision_response = some m0)
    (hdet : st.current_plc_detection.isSome = true)
    (hcb : st.carriage_moving_bottle = false)
    (hck : st.carriage_moving_bank = false) :
    ∃ s' : Step, s'.st = st ∧ s'.out = {} ∧
      tick e st h =
        check_hardware_errors e.plc (check_receiver_state e.plc
          (let t := handle_vision_response_with_events e.now m0 s'
           { t with st := { t.st with
              state := .idle, vision_request_time := none,
              current_plc_detection := none,
              pending_vision_response := none } })) := by
  obtain ⟨d, hd⟩ := Option.isSome_iff_exists.mp hdet
  refine ⟨wv_store { st := st, hub := deliverHubEvs e.hubEvs h, out := {} },
    (wv_store_pending_some _ m0 hpend).1, (wv_store_pending_some _ m0 hpend).2, ?_⟩
  unfold tick carriage_timeout_checks
  rw [tick_dumping_id e _ (by simp [hst]) (by simp [hst]),
    bottle_timeout_check_id e.now _ hcb, bank_timeout_check_id e.now _ hck,
    tick_branch_waiting e _ hst]
  unfold waiting_vision_body
  rw [wv_resolve_det_some e.plc _ d
      (by rw [(wv_store_pending_some _ m0 hpend).1]; exact hd),
    wv_decide_fused e.now _ m0
      (by rw [(wv_store_pending_some _ m0 hpend).1]; exact hpend)
      (by rw [(wv_store_pending_some _ m0 hpend).1]; exact hdet)]

/-! ## Fusion handler case analysis -/

theorem hvre_plastic (now : ℚ) (s : Step)
    (hdet : s.st.current_plc_detection = some "plastic") :
    (handle_vision_response_with_events now (Msg.raw "plastic") s).st.cmdReg =
      set_bit s.st.cmdReg 7 ∧
    (handle_vision_response_with_events now (Msg.raw "plastic") s).out.events =
      s.out.events ++
        [⟨"container_recognized",
          [("container_type", .str "plastic"), ("confidence", .rat 1)]⟩] := by
  unfold handle_vision_response_with_events
  rw [if_neg (by simp [Msg.render]), if_pos ⟨hdet, rfl⟩]
  exact ⟨rfl, rfl⟩

theorem hvre_aluminum (now : ℚ) (s : Step)
    (hdet : s.st.current_plc_detection = some "aluminum") :
    (handle_vision_response_with_events now (Msg.raw "aluminum") s).st.cmdReg =
      set_bit s.st.cmdReg 6 ∧
    (handle_vision_response_with_events now (Msg.raw "aluminum") s).out.events =
      s.out.events ++
        [⟨"container_recognized",
          [("container_type", .str "aluminum"), ("confidence", .rat 1)]⟩] := by
  unfold handle_vision_response_with_events
  rw [if_neg (by simp [Msg.render]),
    if_neg (by rintro ⟨-, hr⟩; simp [Msg.render] at hr), if_pos ⟨hdet, rfl⟩]
  exact ⟨rfl, rfl⟩

theorem hvre_none (now : ℚ) (s : Step) :
    (handle_vision_response_with_events now (Msg.raw "none") s).st.cmdReg =
      s.st.cmdReg ∧
    (handle_vision_response_with_events now (Msg.raw "none") s).out.events =
      s.out.events ++ [⟨"container_not_recognized", []⟩] := by
  unfold handle_vision_response_with_events
  rw [if_pos (by simp [Msg.render])]
  exact ⟨rfl, rfl⟩

theorem hvre_mismatch (now : ℚ) (s : Step) (p v : String)
    (hdet : s.st.current_plc_detection = some p)
    (hvn : v ≠ "none")
    (h1 : ¬ (p = "plastic" ∧ v = "plastic"))
    (h2 : ¬ (p = "aluminum" ∧ v = "aluminum")) :
    (handle_vision_response_with_events now (Msg.raw v) s).st.cmdReg =
      s.st.cmdReg ∧
    (handle_vision_response_with_events now (Msg.raw v) s).out.events =
      s.out.events ++
        [⟨"container_not_recognized",
          [("plc_type", .str p), ("vision_type", .str v)]⟩] := by
  unfold handle_vision_response_with_events
  rw [if_neg (by simpa [Msg.render] using hvn),
    if_neg (by rintro ⟨hp, hr⟩; rw [hdet] at hp
               exact h1 ⟨by injection hp, by simpa [Msg.render] using hr⟩),
    if_neg (by rintro ⟨hp, hr⟩; rw [hdet] at hp
               exact h2 ⟨by injection hp, by simpa [Msg.render] using hr⟩)]
  rw [hdet]
  exact ⟨rfl, rfl⟩

theorem checks_st_frame (p : PlcIn) (s : Step) :
    (check_hardware_errors p (check_receiver_state p s)).st.state = s.st.state ∧
    (check_hardware_errors p (check_receiver_state p s)).st.cmdReg = s.st.cmdReg ∧
    (check_hardware_errors p (check_receiver_state p s)).st.pending_vision_response =
      s.st.pending_vision_response ∧
    (check_hardware_errors p (check_receiver_state p s)).st.current_plc_detection =
      s.st.current_plc_detection ∧
    (check_hardware_errors p (check_receiver_state p s)).st.vision_request_time =
      s.st.vision_request_time := by
  obtain ⟨a1, a2, a3, a4, a5⟩ := check_receiver_state_st_frame p s
  obtain ⟨b1, b2, b3, b4, b5⟩ := check_hardware_errors_st_frame p (check_receiver_state p s)
  exact ⟨b1.trans a1, b2.trans a2, b3.trans a3, b4.trans a4, b5.trans a5⟩

theorem mem_events_checks (p : PlcIn) (s : Step) (ev : Event)
    (hev : ev ∈ s.out.events) :
    ev ∈ (check_hardware_errors p (check_receiver_state p s)).out.events :=
  mem_events_check_hardware_errors p _ ev (mem_events_check_receiver_state p s ev hev)

/-! ## Fixtures for witnesses and counterexamples -/

/-- Device snapshot with the given status word and given counters. -/
def plcWith (status bottles banks : Nat) : PlcIn :=
  { status := status, bottle_count := bottles, bank_count := banks,
    bottle_fill_percent := 0, bank_fill_percent := 0 }

/-- Quiet tick input: a time, a status word, no hub events. -/
def envWith (now : ℚ) (status : Nat) : Env :=
  { now := now, plc := plcWith status 0 0, hubEvs := [] }

/-- Working configuration at program start. -/
def step0 : Step := { st := initialState, hub := Hub.empty, out := {} }

/-! ## Claims -/

/-- C1: vision-response fusion.  When the coordinator is in WAITING_VISION
with both `current_plc_detection` and `pending_vision_response` resolved
(latch flags idle so the timeout clears do not interleave), the tick (i) on
plastic/plastic sets command bit 7 and emits `container_recognized` for
plastic, (ii) on aluminum/aluminum sets bit 6 and emits it for aluminum,
(iii) on a "none" reply emits `container_not_recognized` with empty data and
touches no command bit, (iv) on any other combination (in particular a
plastic/aluminum mismatch) emits `container_not_recognized` carrying
`plc_type` and `vision_type` and touches no command bit; and in every case
the state becomes IDLE and `pending_vision_response`,
`current_plc_detection`, `vision_request_time` are cleared. -/
theorem c1_vision_fusion (e : Env) (st : AppSt) (h : Hub) (v p : String)
    (hst : st.state = .waiting_vision)
    (hpend : st.pending_vision_response = some (Msg.raw v))
    (hdet : st.current_plc_detection = some p)
    (hcb : st.carriage_moving_bottle = false)
    (hck : st.carriage_moving_bank = false) :
    ((tick e st h).st.state = .idle ∧
     (tick e st h).st.pending_vision_response = none ∧
     (tick e st h).st.current_plc_detection = none ∧
     (tick e st h).st.vision_request_time = none) ∧
    (p = "plastic" → v = "plastic" →
      Nat.testBit (tick e st h).st.cmdReg 7 = true ∧
      (⟨"container_recognized",
        [("container_type", .str "plastic"), ("confidence", .rat 1)]⟩ : Event)
        ∈ (tick e st h).out.events) ∧
    (p = "aluminum" → v = "aluminum" →
      Nat.testBit (tick e st h).st.cmdReg 6 = true ∧
      (⟨"container_recognized",
        [("container_type", .str "aluminum"), ("confidence", .rat 1)]⟩ : Event)
        ∈ (tick e st h).out.events) ∧
    (v = "none" →
      (⟨"container_not_recognized", []⟩ : Event) ∈ (tick e st h).out.events ∧
      (tick e st h).st.cmdReg = st.cmdReg) ∧
    (v ≠ "none" → ¬ (p = "plastic" ∧ v = "plastic") →
      ¬ (p = "aluminum" ∧ v = "aluminum") →
      (⟨"container_not_recognized",
        [("plc_type", .str p), ("vision_type", .str v)]⟩ : Event)
        ∈ (tick e st h).out.events ∧
      (tick e st h).st.cmdReg = st.cmdReg) := by
  obtain ⟨s', hst', hout', hspine⟩ :=
    tick_waiting_fused e st h (Msg.raw v) hst hpend (by simp [hdet]) hcb hck
  have hdet' : s'.st.current_plc_detection = some p := by rw [hst']; exact hdet
  rw [hspine]
  dsimp only
  refine ⟨⟨?_, ?_, ?_, ?_⟩, ?_, ?_, ?_, ?_⟩
  · rw [(checks_st_frame e.plc _).1]
  · rw [(checks_st_frame e.plc _).2.2.1]
  · rw [(checks_st_frame e.plc _).2.2.2.1]
  · rw [(checks_st_frame e.plc _).2.2.2.2]
  · intro hp hv
    subst hp; subst hv
    constructor
    · rw [(checks_st_frame e.plc _).2.1]
      show Nat.testBit
        (handle_vision_response_with_events e.now (Msg.raw "plastic") s').st.cmdReg
        7 = true
      rw [(hvre_plastic e.now s' hdet').1, hst']
      simp [testBit_set_bit]
    · refine mem_events_checks e.plc _ _ ?_
      show _ ∈
        (handle_vision_response_with_events e.now (Msg.raw "plastic") s').out.events
      rw [(hvre_plastic e.now s' hdet').2, hout']
      simp
  · intro hp hv
    subst hp; subst hv
    constructor
    · rw [(checks_st_frame e.plc _).2.1]
      show Nat.testBit
        (handle_vision_response_with_events e.now (Msg.raw "aluminum") s').st.cmdReg
        6 = true
      rw [(hvre_aluminum e.now s' hdet').1, hst']
      simp [testBit_set_bit]
    · refine mem_events_checks e.plc _ _ ?_
      show _ ∈
        (handle_vision_response_with_events e.now (Msg.raw "aluminum") s').out.events
      rw [(hvre_aluminum e.now s' hdet').2, hout']
      simp
  · intro hv
    subst hv
    constructor
    · refine mem_events_checks e.plc _ _ ?_
      show _ ∈
        (handle_vision_response_with_events e.now (Msg.raw "none") s').out.events
      rw [(hvre_none e.now s').2, hout']
      simp
    · rw [(checks_st_frame e.plc _).2.1]
      show (handle_vision_response_with_events e.now (Msg.raw "none") s').st.cmdReg
        = st.cmdReg
      rw [(hvre_none e.now s').1, hst']
  · intro hvn h1 h2
    constructor
    · refine mem_events_checks e.plc _ _ ?_
      show _ ∈
        (handle_vision_response_with_events e.now (Msg.raw v) s').out.events
      rw [(hvre_mismatch e.now s' p v hdet' hvn h1 h2).2, hout']
      simp
    · rw [(checks_st_frame e.plc _).2.1]
      show (handle_vision_response_with_events e.now (Msg.raw v) s').st.cmdReg
        = st.cmdReg
      rw [(hvre_mismatch e.now s' p v hdet' hvn h1 h2).1, hst']

/-- Coordinator state waiting on vision with both results resolved plastic. -/
def c1St : AppSt :=
  { initialState with
    state := .waiting_vision
    pending_vision_response := some (Msg.raw "plastic")
    current_plc_detection := some "plastic"
    vision_request_time := some 99 }

/-- Witness for C1: a concrete fused plastic tick goes IDLE with command
bit 7 set. -/
theorem c1_vision_fusion_witness :
    (tick (envWith 100 0) c1St Hub.empty).st.state = AppState.idle ∧
    Nat.testBit (tick (envWith 100 0) c1St Hub.empty).st.cmdReg 7 = true := by
  have H := c1_vision_fusion (envWith 100 0) c1St Hub.empty "plastic" "plastic"
    rfl rfl rfl rfl rfl
  exact ⟨H.1.1, (H.2.1 rfl rfl).1⟩

/-- C2: dumping completion.  In DUMPING_PLASTIC (resp. DUMPING_ALUMINUM), if
the left (resp. right) carriage sensor reads 1 the handler issues
full_clear_command, goes IDLE, clears `dump_started_time` and emits
`container_accepted` with the container type and the matching counter
register; otherwise, once more than `dump_timeout` has elapsed since
`dump_started_time`, it issues full_clear_command, goes ERROR and emits
`hardware_error` with `carriage_left_timeout` (resp.
`carriage_right_timeout`). -/
theorem c2_dumping_completion (e : Env) (s : Step) :
    (s.st.state = .dumping_plastic → get_bit e.plc.status 1 = 1 →
      (handle_dumping_state e s).st.state = .idle ∧
      (handle_dumping_state e s).st.dump_started_time = none ∧
      (handle_dumping_state e s).st.cmdReg = 0 ∧
      (handle_dumping_state e s).out.plcCmds =
        s.out.plcCmds ++ [.full_clear_register] ∧
      (handle_dumping_state e s).out.events = s.out.events ++
        [⟨"container_accepted",
          [("container_type", .str "plastic"),
           ("counter", .num e.plc.bottle_count)]⟩]) ∧
    (∀ t : ℚ, s.st.state = .dumping_plastic → get_bit e.plc.status 1 ≠ 1 →
      s.st.dump_started_time = some t → e.now - t > dump_timeout →
      (handle_dumping_state e s).st.state = .error ∧
      (handle_dumping_state e s).st.dump_started_time = none ∧
      (handle_dumping_state e s).st.cmdReg = 0 ∧
      (handle_dumping_state e s).out.plcCmds =
        s.out.plcCmds ++ [.full_clear_register] ∧
      (handle_dumping_state e s).out.events = s.out.events ++
        [⟨"hardware_error",
          [("error_code", .str "carriage_left_timeout"),
           ("message", .str "Таймаут движения каретки влево")]⟩]) ∧
    (s.st.state = .dumping_aluminum → get_bit e.plc.status 3 = 1 →
      (handle_dumping_state e s).st.state = .idle ∧
      (handle_dumping_state e s).st.dump_started_time = none ∧
      (handle_dumping_state e s).st.cmdReg = 0 ∧
      (handle_dumping_state e s).out.plcCmds =
        s.out.plcCmds ++ [.full_clear_register] ∧
      (handle_dumping_state e s).out.events = s.out.events ++
        [⟨"container_accepted",
          [("container_type", .str "aluminum"),
           ("counter", .num e.plc.bank_count)]⟩]) ∧
    (∀ t : ℚ, s.st.state = .dumping_aluminum → get_bit e.plc.status 3 ≠ 1 →
      s.st.dump_started_time = some t → e.now - t > dump_timeout →
      (handle_dumping_state e s).st.state = .error ∧
      (handle_dumping_state e s).st.dump_started_time = none ∧
      (handle_dumping_state e s).st.cmdReg = 0 ∧
      (handle_dumping_state e s).out.plcCmds =
        s.out.plcCmds ++ [.full_clear_register] ∧
      (handle_dumping_state e s).out.events = s.out.events ++
        [⟨"hardware_error",
          [("error_code", .str "carriage_right_timeout"),
           ("message", .str "Таймаут движения каретки вправо")]⟩]) := by
  refine ⟨?_, ?_, ?_, ?_⟩
  · intro hst hsens
    unfold handle_dumping_state
    rw [hst]
    dsimp only
    unfold dumping_step
    rw [if_pos hsens]
    exact ⟨rfl, rfl, rfl, rfl, rfl⟩
  · intro t hst hsens hdt htout
    unfold handle_dumping_state
    rw [hst]
    dsimp only
    unfold dumping_step
    rw [if_neg hsens, if_pos (by rw [hdt]; simpa using htout)]
    exact ⟨rfl, rfl, rfl, rfl, rfl⟩
  · intro hst hsens
    unfold handle_dumping_state
    rw [hst]
    dsimp only
    unfold dumping_step
    rw [if_pos hsens]
    exact ⟨rfl, rfl, rfl, rfl, rfl⟩
  · intro t hst hsens hdt htout
    unfold handle_dumping_state
    rw [hst]
    dsimp only
    unfold dumping_step
    rw [if_neg hsens, if_pos (by rw [hdt]; simpa using htout)]
    exact ⟨rfl, rfl, rfl, rfl, rfl⟩

/-- Dumping-plastic configuration with a dump in progress since t = 10. -/
def c2Step : Step :=
  { st := { initialState with
            state := .dumping_plastic
            dump_started_time := some 10 },
    hub := Hub.empty, out := {} }

/-- Witness for C2: left sensor asserted completes the plastic dump. -/
theorem c2_dumping_completion_witness :
    (handle_dumping_state { now := 11, plc := plcWith 2 3 0, hubEvs := [] }
      c2Step).st.state = AppState.idle ∧
    (handle_dumping_state { now := 11, plc := plcWith 2 3 0, hubEvs := [] }
      c2Step).out.events =
      [⟨"container_accepted",
        [("container_type", .str "plastic"), ("counter", .num 3)]⟩] := by
  have H := (c2_dumping_completion
    { now := 11, plc := plcWith 2 3 0, hubEvs := [] } c2Step).1 rfl (by decide)
  exact ⟨H.1, H.2.2.2.2⟩

/-- C7: one-shot command slot.  `get_command` returns the current last
message (what `get_state` sees) and clears it, so an immediate second
`get_command` returns the empty message; a missing peer also reads empty. -/
theorem c7_get_command_one_shot (h : Hub) (name : String) :
    (Hub.get_command h name).1 = Hub.get_state h name ∧
    (Hub.get_command (Hub.get_command h name).2 name).1 = none ∧
    (h name = none → (Hub.get_command h name).1 = none) := by
  unfold Hub.get_command Hub.get_state
  cases hn : h name with
  | none => simp [hn]
  | some slot => simp [hn]

/-- Hub with the vision peer registered and one reply received. -/
def hubV : Hub :=
  Hub.recvMsg (Hub.register Hub.empty "vision") "vision" (Msg.raw "plastic")

/-- Witness for C7 at a concrete hub. -/
theorem c7_get_command_one_shot_witness :
    (Hub.get_command (Hub.get_command hubV "vision").2 "vision").1 = none ∧
    (Hub.get_command hubV "app").1 = none :=
  ⟨(c7_get_command_one_shot hubV "vision").2.1,
   (c7_get_command_one_shot hubV "app").2.2 rfl⟩

/-- C9 counterexample: a frame received after registration and before the
first `is_client_just_connected` read replaces the slot dict and drops the
flag, so the first read returns false — the flag does NOT stay armed across
intervening messages. -/
theorem c9_counterexample :
    (Hub.is_client_just_connected
      (Hub.recvMsg (Hub.register Hub.empty "app") "app" (Msg.raw "x"))
      "app").1 = false := rfl

/-- C9 amended: the `just_connected` flag is armed by registration and
disarmed by the first read (which returns true) OR by any message the peer
sends; after either, reads return false until re-registration. -/
theorem c9_just_connected_edge (h : Hub) (name : String) (m : Msg) :
    (Hub.is_client_just_connected (Hub.register h name) name).1 = true ∧
    (Hub.is_client_just_connected
      (Hub.is_client_just_connected (Hub.register h name) name).2 name).1 = false ∧
    (Hub.is_client_just_connected (Hub.recvMsg h name m) name).1 = false := by
  unfold Hub.is_client_just_connected Hub.register Hub.recvMsg
  simp

/-- C10: a `dump_container` whose `container_type` is neither "plastic" nor
"aluminum" (including a missing parameter) leaves the whole configuration —
state, `dump_started_time`, command register, outputs — unchanged and emits
nothing. -/
theorem c10_dump_invalid_type_noop (now : ℚ) (ct : Option JVal) (s : Step)
    (hp : ct ≠ some (.str "plastic")) (ha : ct ≠ some (.str "aluminum")) :
    handle_container_dump now ct s = s := by
  unfold handle_container_dump
  rw [if_neg hp, if_neg ha]

/-- Witness for C10 at the values "glass" and missing. -/
theorem c10_dump_invalid_type_noop_witness :
    handle_container_dump 5 (some (.str "glass")) step0 = step0 ∧
    handle_container_dump 5 none step0 = step0 :=
  ⟨c10_dump_invalid_type_noop 5 (some (.str "glass")) step0 (by decide) (by decide),
   c10_dump_invalid_type_noop 5 none step0 (by decide) (by decide)⟩

theorem lookupHandler_eq_none (l : List (String × (Step → Step))) (c : String)
    (hc : c ∉ l.map Prod.fst) : lookupHandler l (.str c) = none := by
  induction l with
  | nil => rfl
  | cons kv rest ih =>
      obtain ⟨k, f⟩ := kv
      simp only [List.map_cons, List.mem_cons, not_or] at hc
      unfold lookupHandler
      rw [if_neg (by simp [hc.1])]
      exact ih hc.2

/-- The registry keys are exactly `commandNames`. -/
theorem command_handlers_names (e : Env) (params : List (String × JVal)) :
    (command_handlers e params).map Prod.fst = commandNames := rfl

/-- C8 counterexample: a non-JSON app message in IDLE produces no event at
all (in particular no `command_error`) — the claim that it emits
`command_error` is false. -/
theorem c8_counterexample :
    (tick (envWith 100 0) initialState
      (Hub.recvMsg (Hub.register Hub.empty "app") "app"
        (Msg.raw "not json"))).out.events = [] ∧
    (tick (envWith 100 0) initialState
      (Hub.recvMsg (Hub.register Hub.empty "app") "app"
        (Msg.raw "not json"))).st = initialState := by
  constructor <;> rfl

/-- C8 amended: a non-JSON app message parses to no command (and the run
loop then ignores it, emitting nothing); a JSON message whose command is not
in the registry emits `command_error{command, error: unknown_command}`; the
coordinator state is unchanged in both cases. -/
theorem c8_protocol_misuse (str : String) (e : Env) (c : String)
    (params : List (String × JVal)) (s : Step) (hc : c ∉ commandNames) :
    (parse_command (some (Msg.raw str))).1 = none ∧
    (dispatch_command e (.str c) params s).st = s.st ∧
    (dispatch_command e (.str c) params s).out.events = s.out.events ++
      [⟨"command_error",
        [("command", .str c), ("error", .str "unknown_command")]⟩] := by
  have hl : lookupHandler (command_handlers e params) (.str c) = none :=
    lookupHandler_eq_none _ c (by rw [command_handlers_names]; exact hc)
  refine ⟨parse_command_raw_fst str, ?_, ?_⟩ <;>
    · unfold dispatch_command
      rw [hl]
      rfl

/-- Witness for C8 with the unregistered command "close_shutter". -/
theorem c8_protocol_misuse_witness :
    (parse_command (some (Msg.raw "oops"))).1 = none ∧
    (dispatch_command (envWith 100 0) (.str "close_shutter") [] step0).out.events =
      [⟨"command_error",
        [("command", .str "close_shutter"),
         ("error", .str "unknown_command")]⟩] := by
  have H := c8_protocol_misuse "oops" (envWith 100 0) "close_shutter" [] step0
    (by decide)
  refine ⟨H.1, ?_⟩
  rw [H.2.2]
  rfl

/-- C5 counterexample: from a fresh start with the receiver already occupied,
one IDLE tick leaves `inference_requested` false while the receiver is not
empty — "the guard is false at IDLE iff the receiver is empty" fails. -/
theorem c5_counterexample :
    (tick (envWith 100 128) initialState Hub.empty).st.state = AppState.idle ∧
    ¬ (((tick (envWith 100 128) initialState Hub.empty).st.inference_requested
          = false) ↔
        (get_bit (envWith 100 128).plc.status 7 = 0 ∧
         get_bit (envWith 100 128).plc.status 6 = 0)) := by
  constructor
  · rfl
  · decide

/-- C5 amended: at most one vision request per container occupancy — once a
tick arms an inference run (sends to vision), no later tick sends anything to
vision while the receiver stays occupied (bottle_exist or bank_exist at 1 on
every tick); equivalently, a second veil falling edge cannot re-arm until an
IDLE tick has observed the receiver empty. -/
theorem c5_single_vision_request (e0 : Env) (es : List Env) (st : AppSt)
    (h : Hub) (harm : (tick e0 st h).out.visionSends ≠ [])
    (hocc : ∀ e ∈ es, get_bit e.plc.status 7 = 1 ∨ get_bit e.plc.status 6 = 1) :
    runVisionSends es (tick e0 st h).st (tick e0 st h).hub = [] :=
  runVisionSends_occupied es _ _ (tick_visionSends_guard e0 st h harm) hocc

/-- Idle coordinator state right after a veil crossing. -/
def sArm : AppSt := { initialState with prev_veil_state := 1 }

/-- Witness for C5: an arming tick followed by an occupied tick sends
nothing further. -/
theorem c5_single_vision_request_witness :
    runVisionSends [envWith 101 128] (tick (envWith 100 64) sArm Hub.empty).st
      (tick (envWith 100 64) sArm Hub.empty).hub = [] :=
  c5_single_vision_request (envWith 100 64) [envWith 101 128] sArm Hub.empty
    (by decide) (by decide)

theorem bottle_timeout_check_frame (now : ℚ) (s : Step) :
    (bottle_timeout_check now s).st.state = s.st.state ∧
    (bottle_timeout_check now s).st.prev_veil_state = s.st.prev_veil_state ∧
    (bottle_timeout_check now s).st.inference_requested =
      s.st.inference_requested ∧
    (bottle_timeout_check now s).out.visionSends = s.out.visionSends := by
  unfold bottle_timeout_check
  split_ifs <;> exact ⟨rfl, rfl, rfl, rfl⟩

theorem bank_timeout_check_frame (now : ℚ) (s : Step) :
    (bank_timeout_check now s).st.state = s.st.state ∧
    (bank_timeout_check now s).st.prev_veil_state = s.st.prev_veil_state ∧
    (bank_timeout_check now s).st.inference_requested =
      s.st.inference_requested ∧
    (bank_timeout_check now s).out.visionSends = s.out.visionSends := by
  unfold bank_timeout_check
  split_ifs <;> exact ⟨rfl, rfl, rfl, rfl⟩

theorem carriage_timeout_checks_frame (now : ℚ) (s : Step) :
    (carriage_timeout_checks now s).st.state = s.st.state ∧
    (carriage_timeout_checks now s).st.prev_veil_state = s.st.prev_veil_state ∧
    (carriage_timeout_checks now s).st.inference_requested =
      s.st.inference_requested ∧
    (carriage_timeout_checks now s).out.visionSends = s.out.visionSends := by
  obtain ⟨a1, a2, a3, a4⟩ := bottle_timeout_check_frame now s
  obtain ⟨b1, b2, b3, b4⟩ := bank_timeout_check_frame now (bottle_timeout_check now s)
  exact ⟨b1.trans a1, b2.trans a2, b3.trans a3, b4.trans a4⟩

theorem tick_branch_idle (e : Env) (s : Step) (hs : s.st.state = .idle) :
    tick_branch e s = idle_body e s := by
  unfold tick_branch
  rw [if_neg (by simp [hs]), if_neg (by simp [hs]), if_pos hs]

theorem idle_connect_check_st (p : PlcIn) (s : Step) :
    (idle_connect_check p s).st = s.st ∧
    (idle_connect_check p s).out.visionSends = s.out.visionSends := by
  unfold idle_connect_check
  rcases hg : Hub.is_client_just_connected s.hub "app" with ⟨jc, h1⟩
  dsimp only
  split_ifs <;> exact ⟨rfl, rfl⟩

theorem idle_guard_reset_prev_veil (p : PlcIn) (s : Step) :
    (idle_guard_reset p s).st.prev_veil_state = s.st.prev_veil_state := by
  unfold idle_guard_reset
  split_ifs <;> rfl

theorem idle_guard_reset_clears (p : PlcIn) (s : Step)
    (hg : s.st.inference_requested = false ∨
      (get_bit p.status 7 ≠ 1 ∧ get_bit p.status 6 ≠ 1)) :
    (idle_guard_reset p s).st.inference_requested = false := by
  unfold idle_guard_reset
  rcases hg with hg | hg
  · split_ifs <;> simp [hg]
  · rw [if_pos (not_or.mpr hg)]

/-- The arm block with its guard satisfied: one inference-trigger frame is
sent, its token determined by the status bits, and the machine moves to
WAITING_VISION. -/
theorem idle_arm_fires (e : Env) (s : Step)
    (hprev : s.st.prev_veil_state = 1) (hveil : get_bit e.plc.status 0 = 0)
    (hg : s.st.inference_requested = false) :
    (idle_arm e s).out.visionSends = s.out.visionSends ++
      [if get_bit e.plc.status 7 = 1 then "bottle_exist"
       else if get_bit e.plc.status 6 = 1 then "bank_exist" else "bottle_exist"] ∧
    (idle_arm e s).st.state = .waiting_vision := by
  unfold idle_arm
  rw [if_pos ⟨hprev, hveil, by simp [hg]⟩]
  constructor
  · by_cases h7 : get_bit e.plc.status 7 = 1
    · simp [h7, sendVision, sendEventToApp]
    · by_cases h6 : get_bit e.plc.status 6 = 1 <;>
        simp [h7, h6, sendVision, sendEventToApp]
  · rfl

/-- C3 counterexample: an arming with the provisional PLC detection aluminum
(bank_exist set, bottle_exist clear) sends the literal token "bank_exist",
not "bottle_exist". -/
theorem c3_counterexample :
    (tick (envWith 100 64) sArm Hub.empty).out.visionSends = ["bank_exist"] ∧
    (tick (envWith 100 64) sArm Hub.empty).st.state = AppState.waiting_vision := by
  constructor <;> rfl

/-- C3 amended: at every arming of an inference run on a veil falling edge in
IDLE, the frame sent to the vision peer is "bottle_exist" when the
provisional PLC detection is plastic or unknown, and "bank_exist" when it is
aluminum (bank_exist set without bottle_exist). -/
theorem c3_arm_token (e : Env) (st : AppSt) (h : Hub)
    (hst : st.state = .idle) (hprev : st.prev_veil_state = 1)
    (hveil : get_bit e.plc.status 0 = 0)
    (hguard : st.inference_requested = false ∨
      (get_bit e.plc.status 7 ≠ 1 ∧ get_bit e.plc.status 6 ≠ 1)) :
    (tick e st h).out.visionSends =
      [if get_bit e.plc.status 7 = 1 then "bottle_exist"
       else if get_bit e.plc.status 6 = 1 then "bank_exist"
       else "bottle_exist"] := by
  have hd : tick_dumping e { st := st, hub := deliverHubEvs e.hubEvs h, out := {} }
      = { st := st, hub := deliverHubEvs e.hubEvs h, out := {} } :=
    tick_dumping_id e _ (by simp [hst]) (by simp [hst])
  show (check_hardware_errors e.plc (check_receiver_state e.plc (tick_branch e
    (carriage_timeout_checks e.now (tick_dumping e
      { st := st, hub := deliverHubEvs e.hubEvs h, out := {} }))))).out.visionSends
    = _
  rw [hd]
  set s1 := carriage_timeout_checks e.now
    { st := st, hub := deliverHubEvs e.hubEvs h, out := {} } with hs1
  obtain ⟨f1, f2, f3, f4⟩ := carriage_timeout_checks_frame e.now
    { st := st, hub := deliverHubEvs e.hubEvs h, out := {} }
  rw [(armQuiet_check_hardware_errors e.plc _).2,
    (armQuiet_check_receiver_state e.plc _).2,
    tick_branch_idle e s1 (by rw [← hs1] at f1; rw [f1]; exact hst)]
  unfold idle_body
  rw [(armQuiet_idle_dispatch e _).2, (armQuiet_idle_veil_update e.plc _).2]
  rw [← hs1] at f2 f3 f4
  have hC := idle_connect_check_st e.plc s1
  have harm := idle_arm_fires e (idle_guard_reset e.plc (idle_connect_check e.plc s1))
    (by rw [idle_guard_reset_prev_veil, hC.1, f2]; exact hprev)
    hveil
    (by
      refine idle_guard_reset_clears e.plc _ ?_
      rcases hguard with hg | hg
      · exact Or.inl (by rw [hC.1, f3]; exact hg)
      · exact Or.inr hg)
  rw [harm.1, out_idle_guard_reset, hC.2, f4]
  rfl

/-- Witness for C3: the aluminum case concretely yields "bank_exist". -/
theorem c3_arm_token_witness :
    (tick (envWith 100 64) sArm Hub.empty).out.visionSends = ["bank_exist"] := by
  have H := c3_arm_token (envWith 100 64) sArm Hub.empty rfl rfl (by decide)
    (Or.inl rfl)
  rw [H]
  decide

/-- C4: ERROR-state command handling.  With the app slot holding a JSON
command `c`, exactly `get_photo`, `get_device_info`, `dump_container` and
`restore_device` are honored — `restore_device` returns the machine to IDLE
and acknowledges, `get_photo` spawns the photo worker, `get_device_info`
emits the snapshot, `dump_container` (with a valid type) starts the dump —
and every other command is answered with
`command_error{error: not_allowed_in_error_state}` with the coordinator
state unchanged. -/
theorem c4_error_state_commands (e : Env) (s : Step) (w : String) (jc : Bool)
    (fields : List (String × JVal)) (c : String)
    (hs : s.st.state = .error) (hw : w ≠ "")
    (hslot : s.hub "app" = some ⟨some (Msg.jsonObj w fields), jc⟩)
    (hcmd : lookupField fields "command" = some (.str c)) (hc0 : c ≠ "") :
    (c = "restore_device" →
      (handle_error_state_commands e s).st = { s.st with state := .idle } ∧
      (handle_error_state_commands e s).out.events = s.out.events ++
        [⟨"restore_device_ack", [("status", .str "ok")]⟩]) ∧
    (c = "get_photo" →
      (handle_error_state_commands e s).st = s.st ∧
      (handle_error_state_commands e s).out.events = s.out.events ∧
      (handle_error_state_commands e s).out.photoWorkers =
        s.out.photoWorkers + 1) ∧
    (c = "get_device_info" →
      (handle_error_state_commands e s).st = s.st ∧
      (handle_error_state_commands e s).out.events = s.out.events ++
        [⟨"device_info",
          [("bottle_count", .num e.plc.bottle_count),
           ("bank_count", .num e.plc.bank_count),
           ("bottle_fill_percent", .num e.plc.bottle_fill_percent),
           ("bank_fill_percent", .num e.plc.bank_fill_percent),
           ("state", .str "error"),
           ("left_sensor", .num (get_bit e.plc.status 1)),
           ("center_sensor", .num (get_bit e.plc.status 2)),
           ("right_sensor", .num (get_bit e.plc.status 3)),
           ("weight_error", .num (get_bit e.plc.status 5)),
           ("door_locked", .bool s.st.door_locked)]⟩]) ∧
    (c = "dump_container" →
      lookupField fields "container_type" = some (.str "plastic") →
      (handle_error_state_commands e s).st.state = .dumping_plastic ∧
      (handle_error_state_commands e s).st.dump_started_time = some e.now ∧
      (handle_error_state_commands e s).out.events = s.out.events ++
        [⟨"container_dumped", [("container_type", .str "plastic")]⟩] ∧
      (handle_error_state_commands e s).out.plcCmds =
        s.out.plcCmds ++ [.force_move_carriage_left]) ∧
    (c ≠ "restore_device" → c ≠ "get_photo" → c ≠ "get_device_info" →
      c ≠ "dump_container" →
      (handle_error_state_commands e s).st = s.st ∧
      (handle_error_state_commands e s).out.events = s.out.events ++
        [⟨"command_error",
          [("command", .str c),
           ("error", .str "not_allowed_in_error_state")]⟩]) := by
  have hgc : Hub.get_command s.hub "app" =
      (some (Msg.jsonObj w fields),
       fun n => if n = "app" then
         some { message := none, justConnected := jc } else s.hub n) := by
    unfold Hub.get_command
    rw [hslot]
  have hfst := parse_command_jsonObj_fst w fields hw
  unfold handle_error_state_commands
  rw [hgc]
  dsimp only
  rcases hpr : parse_command (some (Msg.jsonObj w fields)) with ⟨ac, params⟩
  have hac : ac = some (.str c) := by
    have h' := congrArg Prod.fst hpr
    dsimp only at h'
    rw [← h', hfst, hcmd]
  subst hac
  dsimp only
  rw [if_neg (by simp [JVal.truthy, hc0])]
  refine ⟨?_, ?_, ?_, ?_, ?_⟩
  · intro hc
    subst hc
    rw [if_neg (by decide), if_neg (by decide), if_neg (by decide), if_pos rfl]
    exact ⟨rfl, rfl⟩
  · intro hc
    subst hc
    rw [if_pos rfl]
    exact ⟨rfl, rfl, rfl⟩
  · intro hc
    subst hc
    rw [if_neg (by decide), if_pos rfl]
    refine ⟨rfl, ?_⟩
    unfold handle_get_device_info sendEventToApp
    dsimp only
    rw [hs]
    rfl
  · intro hc hct
    subst hc
    rw [if_neg (by decide), if_neg (by decide), if_pos rfl]
    have hparam : lookupField params "param" = some (.str "plastic") := by
      have h'' := parse_command_jsonObj_param w fields _ hw hct
      rw [hpr] at h''
      exact h''
    unfold handle_container_dump
    rw [hparam, if_pos rfl]
    exact ⟨rfl, rfl, rfl, rfl⟩
  · intro h1 h2 h3 h4
    rw [if_neg (by simp [h2]), if_neg (by simp [h3]), if_neg (by simp [h4]),
      if_neg (by simp [h1])]
    exact ⟨rfl, rfl⟩

/-- ERROR-state configuration with a pending `open_shutter` app command. -/
def c4Step : Step :=
  { st := { initialState with state := .error },
    hub := Hub.recvMsg (Hub.register Hub.empty "app") "app"
      (Msg.jsonObj "x" [("command", .str "open_shutter")]),
    out := {} }

/-- Witness for C4: `open_shutter` in ERROR is refused and the state stays
ERROR. -/
theorem c4_error_state_commands_witness :
    (handle_error_state_commands (envWith 100 0) c4Step).st.state =
      AppState.error ∧
    (handle_error_state_commands (envWith 100 0) c4Step).out.events =
      [⟨"command_error",
        [("command", .str "open_shutter"),
         ("error", .str "not_allowed_in_error_state")]⟩] := by
  have H := (c4_error_state_commands (envWith 100 0) c4Step "x" false
    [("command", .str "open_shutter")] "open_shutter"
    rfl (by decide) rfl rfl (by decide)).2.2.2.2
    (by decide) (by decide) (by decide) (by decide)
  constructor
  · rw [H.1]
    rfl
  · rw [H.2]
    rfl

theorem dumping_step_carriage_frame (now : ℚ) (sensor : Nat) (ty : String)
    (counter : Nat) (ec em : String) (s : Step) :
    (dumping_step now sensor ty counter ec em s).st.carriage_moving_bottle =
      s.st.carriage_moving_bottle ∧
    (dumping_step now sensor ty counter ec em s).st.carriage_moving_bank =
      s.st.carriage_moving_bank ∧
    (dumping_step now sensor ty counter ec em s).st.carriage_moving_start_time =
      s.st.carriage_moving_start_time := by
  unfold dumping_step
  split_ifs <;> exact ⟨rfl, rfl, rfl⟩

theorem tick_dumping_carriage_frame (e : Env) (s : Step) :
    (tick_dumping e s).st.carriage_moving_bottle = s.st.carriage_moving_bottle ∧
    (tick_dumping e s).st.carriage_moving_bank = s.st.carriage_moving_bank ∧
    (tick_dumping e s).st.carriage_moving_start_time =
      s.st.carriage_moving_start_time := by
  unfold tick_dumping
  split_ifs with h
  · unfold handle_dumping_state
    cases hst : s.st.state <;> dsimp only <;>
      exact dumping_step_carriage_frame _ _ _ _ _ _ _
  · exact ⟨rfl, rfl, rfl⟩

theorem dumping_step_not_waiting (now : ℚ) (sensor : Nat) (ty : String)
    (counter : Nat) (ec em : String) (s : Step)
    (hs : s.st.state ≠ .waiting_vision) :
    (dumping_step now sensor ty counter ec em s).st.state ≠ .waiting_vision := by
  unfold dumping_step
  split_ifs
  · exact (by decide : AppState.idle ≠ AppState.waiting_vision)
  · exact (by decide : AppState.error ≠ AppState.waiting_vision)
  · exact hs

theorem tick_dumping_not_waiting (e : Env) (s : Step)
    (hs : s.st.state ≠ .waiting_vision) :
    (tick_dumping e s).st.state ≠ .waiting_vision := by
  unfold tick_dumping
  split_ifs with h
  · unfold handle_dumping_state
    cases hst : s.st.state <;> dsimp only <;>
      exact dumping_step_not_waiting _ _ _ _ _ _ _ hs
  · exact hs

/-- An expired bottle latch: both checks run, the bottle one fires (clearing
bit 7 and the shared timestamp), the bank one then sees a falsy timestamp. -/
theorem carriage_timeout_checks_bottle_fires (now : ℚ) (s : Step) (t : ℚ)
    (hb : s.st.carriage_moving_bottle = true)
    (ht : s.st.carriage_moving_start_time = some t) (ht0 : t ≠ 0)
    (hel : now - t > carriage_reset_timeout) :
    Nat.testBit (carriage_timeout_checks now s).st.cmdReg 7 = false := by
  unfold carriage_timeout_checks bottle_timeout_check
  rw [if_pos ⟨hb, by simp [tTruthy, ht, ht0]⟩,
    if_pos (by rw [ht]; simpa using hel)]
  unfold bank_timeout_check
  rw [if_neg (by rintro ⟨-, hT⟩; simp [tTruthy] at hT)]
  show Nat.testBit (clear_bit s.st.cmdReg 7) 7 = false
  simp [testBit_clear_bit]

/-- An expired bank latch with the bottle flag idle: the bank check fires and
clears bit 6. -/
theorem carriage_timeout_checks_bank_fires (now : ℚ) (s : Step) (t : ℚ)
    (hbf : s.st.carriage_moving_bottle = false)
    (hk : s.st.carriage_moving_bank = true)
    (ht : s.st.carriage_moving_start_time = some t) (ht0 : t ≠ 0)
    (hel : now - t > carriage_reset_timeout) :
    Nat.testBit (carriage_timeout_checks now s).st.cmdReg 6 = false := by
  unfold carriage_timeout_checks
  rw [bottle_timeout_check_id now s hbf]
  unfold bank_timeout_check
  rw [if_pos ⟨hk, by simp [tTruthy, ht, ht0]⟩,
    if_pos (by rw [ht]; simpa using hel)]
  show Nat.testBit (clear_bit s.st.cmdReg 6) 6 = false
  simp [testBit_clear_bit]

theorem dispatchCmds_no_raises_7 : ∀ c ∈ dispatchCmds, ¬ raisesBit 7 c := by
  intro c hc
  fin_cases hc <;> simp [raisesBit]

theorem dispatchCmds_no_raises_6 : ∀ c ∈ dispatchCmds, ¬ raisesBit 6 c := by
  intro c hc
  fin_cases hc <;> simp [raisesBit]

theorem bottle_timeout_check_not_elapsed (now : ℚ) (s : Step)
    (h : ¬ (now - s.st.carriage_moving_start_time.getD 0 > carriage_reset_timeout)) :
    bottle_timeout_check now s = s := by
  unfold bottle_timeout_check
  by_cases hA : s.st.carriage_moving_bottle = true ∧
      tTruthy s.st.carriage_moving_start_time = true
  · rw [if_pos hA, if_neg h]
  · rw [if_neg hA]

theorem bank_timeout_check_id_falsy (now : ℚ) (s : Step)
    (h : tTruthy s.st.carriage_moving_start_time = false) :
    bank_timeout_check now s = s := by
  unfold bank_timeout_check
  rw [if_neg (by simp [h])]

/-- IDLE configuration with both carriage-moving flags armed on the shared
timestamp (at 10), both latch bits set and the timeout long expired by the
tick at 13. -/
def c6bSt : AppSt :=
  { initialState with
    cmdReg := set_bit (set_bit 0 6) 7
    carriage_moving_bottle := true
    carriage_moving_bank := true
    carriage_moving_start_time := some 10 }

/-- `c6bSt` after the bottle timeout check has fired: bit 7 cleared, the
bottle flag and the shared timestamp nulled, the stop command recorded. -/
def c6bMid : Step :=
  { st := { c6bSt with
      cmdReg := clear_bit c6bSt.cmdReg 7
      carriage_moving_bottle := false
      carriage_moving_start_time := none },
    hub := Hub.empty,
    out := { plcCmds := [.radxa_stop_detected_bottle] } }

/-- Dumping-plastic configuration with bit 7 latched and a fresh (1 s old)
carriage-moving flag. -/
def c6St : AppSt :=
  { initialState with
    state := .dumping_plastic
    cmdReg := set_bit 0 7
    carriage_moving_bottle := true
    carriage_moving_start_time := some 10
    dump_started_time := some 10 }

/-- C6 counterexample, two scenarios.  (1) The left sensor completes the
dump before the latch timeout: `cmd_full_clear_register` lowers bit 7 while
the timeout mechanism (`cmd_radxa_stop_detected_bottle`) never runs — so the
timeout check is NOT the single mechanism that lowers bits 6 and 7.  (2)
With both carriage-moving flags armed on the shared timestamp (at 10) and
the timeout long expired, the tick at 13 lowers bit 7 but leaves bit 6 set,
nulling the shared timestamp while the bank flag stays armed — the bank
latch has missed its `carriage_reset_timeout` deadline and the timeout
mechanism can never clear it, refuting the unconditional within-timeout
clearing guarantee for bit 6. -/
theorem c6_counterexample :
    (Nat.testBit c6St.cmdReg 7 = true ∧
     Nat.testBit (tick (envWith 11 2) c6St Hub.empty).st.cmdReg 7 = false ∧
     PlcCmd.radxa_stop_detected_bottle ∉
       (tick (envWith 11 2) c6St Hub.empty).out.plcCmds ∧
     PlcCmd.full_clear_register ∈
       (tick (envWith 11 2) c6St Hub.empty).out.plcCmds) ∧
    (Nat.testBit c6bSt.cmdReg 6 = true ∧
     c6bSt.carriage_moving_bank = true ∧
     c6bSt.carriage_moving_start_time = some 10 ∧
     Nat.testBit (tick (envWith 13 0) c6bSt Hub.empty).st.cmdReg 6 = true ∧
     (tick (envWith 13 0) c6bSt Hub.empty).st.carriage_moving_bank = true ∧
     (tick (envWith 13 0) c6bSt Hub.empty).st.carriage_moving_start_time
       = none) := by
  have htd : tick_dumping (envWith 11 2)
      { st := c6St, hub := Hub.empty, out := {} } =
      handle_dumping_state (envWith 11 2)
        { st := c6St, hub := Hub.empty, out := {} } := by
    unfold tick_dumping
    rw [if_pos (Or.inl (show ({ st := c6St, hub := Hub.empty, out := {} } :
      Step).st.state = .dumping_plastic from rfl))]
  have hc2 := (c2_dumping_completion (envWith 11 2)
    { st := c6St, hub := Hub.empty, out := {} }).1 rfl (by decide)
  obtain ⟨fb, fk, fs⟩ := tick_dumping_carriage_frame (envWith 11 2)
    { st := c6St, hub := Hub.empty, out := {} }
  have hcar : carriage_timeout_checks (envWith 11 2).now
      (tick_dumping (envWith 11 2) { st := c6St, hub := Hub.empty, out := {} }) =
      tick_dumping (envWith 11 2) { st := c6St, hub := Hub.empty, out := {} } := by
    unfold carriage_timeout_checks
    rw [bottle_timeout_check_not_elapsed _ _
      (by rw [fs]; norm_num [envWith, carriage_reset_timeout, c6St]),
      bank_timeout_check_id _ _ (by rw [fk]; rfl)]
  have hreg : (tick_dumping (envWith 11 2)
      { st := c6St, hub := Hub.empty, out := {} }).st.cmdReg = 0 := by
    rw [htd]
    exact hc2.2.2.1
  have hcmds : (tick_dumping (envWith 11 2)
      { st := c6St, hub := Hub.empty, out := {} }).out.plcCmds =
      [PlcCmd.full_clear_register] := by
    rw [htd, hc2.2.2.2.1]
    rfl
  have hnw2 : (tick_dumping (envWith 11 2)
      { st := c6St, hub := Hub.empty, out := {} }).st.state ≠ .waiting_vision := by
    rw [htd, hc2.1]
    decide
  have htick : tick (envWith 11 2) c6St Hub.empty =
      check_hardware_errors (envWith 11 2).plc
        (check_receiver_state (envWith 11 2).plc
          (tick_branch (envWith 11 2)
            (tick_dumping (envWith 11 2)
              { st := c6St, hub := Hub.empty, out := {} }))) := by
    show check_hardware_errors (envWith 11 2).plc
      (check_receiver_state (envWith 11 2).plc
        (tick_branch (envWith 11 2)
          (carriage_timeout_checks (envWith 11 2).now
            (tick_dumping (envWith 11 2)
              { st := c6St, hub := Hub.empty, out := {} })))) = _
    rw [hcar]
  have hext : ExtendsIn dispatchCmds
      (tick_dumping (envWith 11 2) { st := c6St, hub := Hub.empty, out := {} })
      (tick (envWith 11 2) c6St Hub.empty) := by
    rw [htick]
    exact (extendsIn_tick_branch_not_waiting (envWith 11 2) _ hnw2).trans
      (((extendsIn_check_receiver_state (envWith 11 2).plc _).mono (by simp)).trans
        ((extendsIn_check_hardware_errors (envWith 11 2).plc _).mono (by simp)))
  obtain ⟨l, hp, hc, hsub⟩ := hext
  have hbot : bottle_timeout_check (envWith 13 0).now
      { st := c6bSt, hub := Hub.empty, out := {} } = c6bMid := by
    unfold bottle_timeout_check
    rw [if_pos ⟨rfl, by decide⟩,
      if_pos (by norm_num [envWith, carriage_reset_timeout, c6bSt])]
    rfl
  have hcar2 : carriage_timeout_checks (envWith 13 0).now
      { st := c6bSt, hub := Hub.empty, out := {} } = c6bMid := by
    unfold carriage_timeout_checks
    rw [hbot]
    exact bank_timeout_check_id_falsy _ _ rfl
  have htick2 : tick (envWith 13 0) c6bSt Hub.empty =
      check_hardware_errors (envWith 13 0).plc
        (check_receiver_state (envWith 13 0).plc
          (tick_branch (envWith 13 0) c6bMid)) := by
    show check_hardware_errors (envWith 13 0).plc
      (check_receiver_state (envWith 13 0).plc
        (tick_branch (envWith 13 0)
          (carriage_timeout_checks (envWith 13 0).now
            (tick_dumping (envWith 13 0)
              { st := c6bSt, hub := Hub.empty, out := {} })))) = _
    rw [tick_dumping_id _ _ (by decide) (by decide), hcar2]
  refine ⟨⟨by decide, ?_, ?_, ?_⟩, by decide, rfl, rfl, ?_, ?_, ?_⟩
  · rw [hc]
    exact testBit_applyCmds_stays_false 7 (Or.inr rfl) l _ (by simp [hreg])
      (fun c hcl => dispatchCmds_no_raises_7 c (hsub c hcl))
  · rw [hp, hcmds]
    intro hmem
    rcases List.mem_append.mp hmem with hmem | hmem
    · simp at hmem
    · have := hsub _ hmem
      simp [dispatchCmds] at this
  · rw [hp, hcmds]
    exact List.mem_append_left _ (by simp)
  · rw [htick2]
    decide
  · rw [htick2]
    rfl
  · rw [htick2]
    rfl

/-- C6 amended: in any coordinator state other than WAITING_VISION (whose
fusion, which runs later in the same iteration, may set the bits again):
(bottle) once the bottle carriage-moving flag is armed with a truthy shared
start timestamp more than `carriage_reset_timeout` old, the tick lowers
command bit 7; (bank) likewise for bit 6, provided the bottle flag is not
simultaneously armed — the two checks share `carriage_moving_start_time`,
the bottle check runs first and nulls it, so a simultaneously armed bank
latch is never cleared by the timeout mechanism (second scenario of the
counterexample); and in every state, bits 6 and 7 are only ever lowered by
the timeout clears (`cmd_radxa_stop_detected_*`) or by
`cmd_full_clear_register` (dump completion, dump timeout, or the diagnostic
passthrough). -/
theorem c6_latch_clearing (e : Env) (st : AppSt) (h : Hub) :
    (∀ t : ℚ, st.state ≠ .waiting_vision → st.carriage_moving_bottle = true →
      st.carriage_moving_start_time = some t → t ≠ 0 →
      e.now - t > carriage_reset_timeout →
      Nat.testBit (tick e st h).st.cmdReg 7 = false) ∧
    (∀ t : ℚ, st.state ≠ .waiting_vision → st.carriage_moving_bottle = false →
      st.carriage_moving_bank = true →
      st.carriage_moving_start_time = some t → t ≠ 0 →
      e.now - t > carriage_reset_timeout →
      Nat.testBit (tick e st h).st.cmdReg 6 = false) ∧
    (∀ b, (b = 6 ∨ b = 7) → Nat.testBit st.cmdReg b = true →
      Nat.testBit (tick e st h).st.cmdReg b = false →
      ∃ c ∈ (tick e st h).out.plcCmds, lowersBit b c) := by
  refine ⟨?_, ?_, ?_⟩
  · intro t hnw hb ht ht0 hel
    obtain ⟨cb, ck, cs⟩ := tick_dumping_carriage_frame e
      { st := st, hub := deliverHubEvs e.hubEvs h, out := {} }
    have hfire := carriage_timeout_checks_bottle_fires e.now
      (tick_dumping e { st := st, hub := deliverHubEvs e.hubEvs h, out := {} }) t
      (by rw [cb]; exact hb) (by rw [cs]; exact ht) ht0 hel
    have hnw2 : (carriage_timeout_checks e.now (tick_dumping e
        { st := st, hub := deliverHubEvs e.hubEvs h, out := {} })).st.state ≠
        .waiting_vision := by
      rw [(carriage_timeout_checks_frame e.now _).1]
      exact tick_dumping_not_waiting e _ hnw
    have hext : ExtendsIn dispatchCmds
        (carriage_timeout_checks e.now (tick_dumping e
          { st := st, hub := deliverHubEvs e.hubEvs h, out := {} }))
        (tick e st h) :=
      (extendsIn_tick_branch_not_waiting e _ hnw2).trans
        (((extendsIn_check_receiver_state e.plc _).mono (by simp)).trans
          ((extendsIn_check_hardware_errors e.plc _).mono (by simp)))
    obtain ⟨l, hp, hc, hsub⟩ := hext
    rw [hc]
    exact testBit_applyCmds_stays_false 7 (Or.inr rfl) l _ hfire
      (fun c hcl => dispatchCmds_no_raises_7 c (hsub c hcl))
  · intro t hnw hbf hk ht ht0 hel
    obtain ⟨cb, ck, cs⟩ := tick_dumping_carriage_frame e
      { st := st, hub := deliverHubEvs e.hubEvs h, out := {} }
    have hfire := carriage_timeout_checks_bank_fires e.now
      (tick_dumping e { st := st, hub := deliverHubEvs e.hubEvs h, out := {} }) t
      (by rw [cb]; exact hbf) (by rw [ck]; exact hk) (by rw [cs]; exact ht)
      ht0 hel
    have hnw2 : (carriage_timeout_checks e.now (tick_dumping e
        { st := st, hub := deliverHubEvs e.hubEvs h, out := {} })).st.state ≠
        .waiting_vision := by
      rw [(carriage_timeout_checks_frame e.now _).1]
      exact tick_dumping_not_waiting e _ hnw
    have hext : ExtendsIn dispatchCmds
        (carriage_timeout_checks e.now (tick_dumping e
          { st := st, hub := deliverHubEvs e.hubEvs h, out := {} }))
        (tick e st h) :=
      (extendsIn_tick_branch_not_waiting e _ hnw2).trans
        (((extendsIn_check_receiver_state e.plc _).mono (by simp)).trans
          ((extendsIn_check_hardware_errors e.plc _).mono (by simp)))
    obtain ⟨l, hp, hc, hsub⟩ := hext
    rw [hc]
    exact testBit_applyCmds_stays_false 6 (Or.inl rfl) l _ hfire
      (fun c hcl => dispatchCmds_no_raises_6 c (hsub c hcl))
  · intro b hb htrue hfalse
    refine lower_mem_of_testBit_drop b hb (tick e st h).out.plcCmds st.cmdReg
      htrue ?_
    rw [← tick_cmdReg_eq_applyCmds]
    exact hfalse

/-- Witness for C6: an expired bottle latch in IDLE is lowered by the tick. -/
theorem c6_latch_clearing_witness :
    Nat.testBit (tick (envWith 13 0)
      { initialState with
        cmdReg := set_bit 0 7
        carriage_moving_bottle := true
        carriage_moving_start_time := some 10 } Hub.empty).st.cmdReg 7 = false :=
  (c6_latch_clearing (envWith 13 0) _ Hub.empty).1 10 (by decide) rfl rfl
    (by decide) (by norm_num [envWith, carriage_reset_timeout])

end Fandomat
